import Mathlib

/-!
# Contact reconciliation: the consolidation service

A shallow embedding of `src/services/consolidateService.js`.

The `contacts` table is a list of rows.  Every handler of the service is an
`async` function that reads and writes the table through the Sequelize model
`Contact`; here each handler takes the table as an argument and returns the
table it leaves behind together with its outcome (the consolidated contact it
resolves to, or the error it rejects with).  The service opens no transaction,
so a write that has been awaited stays in the table whatever happens later in
the same call.
-/

namespace ContactReconciliation

/-! ## Data model -/

/-- The column `link_precedence`: the string "primary" or the string "secondary". -/
inductive LinkPrecedence where
  | primary
  | secondary
deriving DecidableEq, Repr

/-- One row of the `contacts` table, with the columns the service reads or writes.
`email`, `phone_number` and `linked_id` are nullable (`none` is SQL NULL);
`created_at` is the row's creation time as a number (JavaScript compares two
`Date` values with `<` and `<=` through their numeric time value). -/
structure Contact where
  id : Nat
  email : Option String
  phone_number : Option String
  linked_id : Option Nat
  link_precedence : LinkPrecedence
  created_at : Nat
deriving DecidableEq, Repr

/-- The `contacts` table. -/
abbrev Store := List Contact

/-- The JavaScript values that reach the consolidated contact: a request field is
a string, or `undefined` (field missing from the request) or `null`; a nullable
column read from a row is a string or `null`.  A phone number sent as a JSON
number is represented by its decimal string. -/
inductive JsValue where
  | undefined
  | null
  | str (s : String)
deriving DecidableEq, Repr

/-- The errors a handler can reject with.  The only one that arises inside the
service itself is the `TypeError` of reading a property of `null` or of
`undefined`. -/
inductive JsError where
  | typeError
deriving DecidableEq, Repr

deriving instance DecidableEq for Except

/-- The object `newContact` that every consolidating handler returns. -/
structure ConsolidatedContact where
  primaryContactId : Nat
  emails : List JsValue
  phoneNumbers : List JsValue
  secondaryContactIds : List Nat
deriving DecidableEq, Repr

/-! ## JavaScript helpers -/

/-- The value of a nullable string column as read from a row. -/
def ofColumn : Option String → JsValue
  | none => JsValue.null
  | some v => JsValue.str v

/-- The value a nullable string column takes when a row is written with the
JavaScript value `v`: `undefined` and `null` leave the column NULL. -/
def toColumn : JsValue → Option String
  | JsValue.str v => some v
  | _ => none

/-- The call `v.toString()`: a `TypeError` on `null` and on `undefined`, the string
itself on a string. -/
def jsToString : JsValue → Except JsError JsValue
  | JsValue.str v => Except.ok (JsValue.str v)
  | _ => Except.error JsError.typeError

/-- The expression `Array.from(new Set(xs))`: the values of `xs` in first-seen
order, each kept once. -/
def arrayFromSet (xs : List JsValue) : List JsValue :=
  xs.foldl (fun acc v => if v ∈ acc then acc else acc ++ [v]) []

/-- The comparison `a < b` of two `linked_id` values: `null` converts to the
number 0. -/
def jsLt (a b : Option Nat) : Bool :=
  decide (a.getD 0 < b.getD 0)

/-! ## The Sequelize model `Contact` -/

/-- The query `Contact.findByPk(pk)`: the row whose primary key is `pk`, or `null`
(here `none`) when there is no such row, which is also the case for a `null`
key. -/
def findByPk (s : Store) (pk : Option Nat) : Option Contact :=
  s.find? (fun r => decide (some r.id = pk))

/-- The query `Contact.findAll` with `attributes: ["id"]`, `where: { linked_id: v }`
and `order: [["id", "ASC"]]`, followed by the `map` that keeps each `id`.  A
`null` value of `v` selects the rows whose `linked_id` is NULL. -/
def findAllIdsByLinkedId (s : Store) (v : Option Nat) : List Nat :=
  ((s.filter (fun r => decide (r.linked_id = v))).map (fun r => r.id)).insertionSort (· ≤ ·)

/-- The `where` clause `{ [Op.or]: [{ id: x }, { linked_id: x }] }`.  With `x = null`
it reads `id IS NULL OR linked_id IS NULL`. -/
def matchesIdOrLinkedId (x : Option Nat) (r : Contact) : Bool :=
  decide (some r.id = x) || decide (r.linked_id = x)

/-- The statement `Contact.update(values, { where })` with the `where` clause
`matchesIdOrLinkedId x`: every selected row gets `values`, every other row is
left as it is. -/
def update (s : Store) (x : Option Nat) (values : Contact → Contact) : Store :=
  s.map (fun r => if matchesIdOrLinkedId x r then values r else r)

/-- The primary key the table assigns to the next inserted row. -/
def nextId (s : Store) : Nat :=
  (s.map (fun r => r.id)).foldr max 0 + 1

/-- The statement `Contact.create(values)`: the new row, with the next primary key
and the creation time `now`, is added to the table. -/
def create (s : Store) (now : Nat) (email phone_number : Option String)
    (linked_id : Option Nat) (link_precedence : LinkPrecedence) : Store × Contact :=
  let row : Contact :=
    { id := nextId s, email := email, phone_number := phone_number,
      linked_id := linked_id, link_precedence := link_precedence, created_at := now }
  (s ++ [row], row)

/-! ## The service -/

/-- The function `findPrimaryContact(contact)`: the contact itself when it is
primary, else the result of `Contact.findByPk(contact.linked_id)`, which is
`null` when no row has that key.  The function has no check of its own; its
`catch` only logs and rethrows. -/
def findPrimaryContact (s : Store) (contact : Contact) : Except JsError (Option Contact) :=
  if contact.link_precedence = LinkPrecedence.primary then Except.ok (some contact)
  else Except.ok (findByPk s contact.linked_id)

/-- The function `findSecondaryContacts(foundContact)`. -/
def findSecondaryContacts (s : Store) (foundContact : Contact) : List Nat :=
  findAllIdsByLinkedId s
    (if foundContact.link_precedence = LinkPrecedence.primary then some foundContact.id
     else foundContact.linked_id)

/-- The function `createContact(foundContact, email_, phoneNumber_)`. -/
def createContact (s : Store) (now : Nat) (foundContact : Contact)
    (email_ phoneNumber_ : JsValue) : Store × Contact :=
  create s now (toColumn email_) (toColumn phoneNumber_)
    (if foundContact.link_precedence = LinkPrecedence.primary then some foundContact.id
     else foundContact.linked_id)
    LinkPrecedence.secondary

/-- The object literal built at the end of `consolidateContacts`,
`handleOneSecondaryContact` and `handleBothSecondaryContacts` from the result of
`findPrimaryContact`: `primaryContact.id` throws on `null`, and
`phoneNumber_.toString()` throws on a missing phone number. -/
def buildNewContact (primaryContact : Option Contact) (email_ phoneNumber_ : JsValue)
    (secondaryContactIdArray : List Nat) : Except JsError ConsolidatedContact :=
  match primaryContact with
  | none => Except.error JsError.typeError
  | some p =>
    match jsToString phoneNumber_ with
    | Except.error e => Except.error e
    | Except.ok phone =>
      Except.ok
        { primaryContactId := p.id
          emails := arrayFromSet [ofColumn p.email, email_]
          phoneNumbers := arrayFromSet [ofColumn p.phone_number, phone]
          secondaryContactIds := secondaryContactIdArray }

/-- The function `consolidateContacts(foundContact, email_, phoneNumber_)`.  It
writes nothing. -/
def consolidateContacts (s : Store) (foundContact : Contact) (email_ phoneNumber_ : JsValue) :
    Except JsError ConsolidatedContact :=
  match findPrimaryContact s foundContact with
  | Except.error e => Except.error e
  | Except.ok primaryContact =>
    buildNewContact primaryContact email_ phoneNumber_ (findSecondaryContacts s foundContact)

/-- The function `handleBothPrimaryContacts(foundContact, foundContact2)`.  The
update is awaited before the consolidated contact is built, and
`newer.phone_number.toString()` throws when that column is NULL. -/
def handleBothPrimaryContacts (s : Store) (foundContact foundContact2 : Contact) :
    Store × Except JsError ConsolidatedContact :=
  let firstIsOlder : Bool := decide (foundContact.created_at ≤ foundContact2.created_at)
  let older := if firstIsOlder then foundContact else foundContact2
  let newer := if firstIsOlder then foundContact2 else foundContact
  let s1 := update s (some newer.id)
    (fun r => { r with linked_id := some older.id, link_precedence := LinkPrecedence.secondary })
  let secondaryContactIdArray := findSecondaryContacts s1 older
  (s1,
    match jsToString (ofColumn newer.phone_number) with
    | Except.error e => Except.error e
    | Except.ok phone =>
      Except.ok
        { primaryContactId := older.id
          emails := arrayFromSet [ofColumn older.email, ofColumn newer.email]
          phoneNumbers := arrayFromSet [ofColumn older.phone_number, phone]
          secondaryContactIds := secondaryContactIdArray })

/-- The expression `c.linked_id !== null ? c.linked_id : c.id`. -/
def linkedIdOrId (c : Contact) : Nat :=
  match c.linked_id with
  | some l => l
  | none => c.id

/-- The function `handleOneSecondaryContact(foundContact, foundContact2, email_,
phoneNumber_)`.  The two arguments are two objects, so the reference test
`primaryPrecedentContact === foundContact` holds exactly when the first argument
was chosen as `primaryPrecedentContact`, and `primaryPrecedentContact === older`
exactly when `older` was chosen to be `primaryPrecedentContact`.  Reading
`tempPrimaryContact.created_at` throws when `findPrimaryContact` gave `null`,
before any write.  The update sets `linked_id` only. -/
def handleOneSecondaryContact (s : Store) (foundContact foundContact2 : Contact)
    (email_ phoneNumber_ : JsValue) : Store × Except JsError ConsolidatedContact :=
  let firstIsPrimary : Bool := decide (foundContact.link_precedence = LinkPrecedence.primary)
  let primaryPrecedentContact := if firstIsPrimary then foundContact else foundContact2
  let secondaryPrecedentContact := if firstIsPrimary then foundContact2 else foundContact
  match findPrimaryContact s secondaryPrecedentContact with
  | Except.error e => (s, Except.error e)
  | Except.ok none => (s, Except.error JsError.typeError)
  | Except.ok (some tempPrimaryContact) =>
    let primaryIsOlder : Bool :=
      decide (primaryPrecedentContact.created_at < tempPrimaryContact.created_at)
    let older := if primaryIsOlder then primaryPrecedentContact else secondaryPrecedentContact
    let newer := if primaryIsOlder then secondaryPrecedentContact else primaryPrecedentContact
    let s1 :=
      if secondaryPrecedentContact.linked_id ≠ some primaryPrecedentContact.id then
        update s (some (linkedIdOrId newer))
          (fun r => { r with linked_id := some (linkedIdOrId older) })
      else s
    match findPrimaryContact s1 secondaryPrecedentContact with
    | Except.error e => (s1, Except.error e)
    | Except.ok primaryContact =>
      (s1, buildNewContact primaryContact email_ phoneNumber_ (findSecondaryContacts s1 older))

/-- The function `handleBothSecondaryContacts(foundContact, foundContact2, email_,
phoneNumber_)`.  The two arguments are two objects, so `older === foundContact`
holds exactly when the first argument was chosen as `older`. -/
def handleBothSecondaryContacts (s : Store) (foundContact foundContact2 : Contact)
    (email_ phoneNumber_ : JsValue) : Store × Except JsError ConsolidatedContact :=
  let differ : Bool := decide (foundContact.linked_id ≠ foundContact2.linked_id)
  let firstIsOlder : Bool := jsLt foundContact.linked_id foundContact2.linked_id
  let older := if firstIsOlder then foundContact else foundContact2
  let newer := if firstIsOlder then foundContact2 else foundContact
  let olderContact := if differ then older else foundContact
  let s1 :=
    if differ then
      update s newer.linked_id
        (fun r => { r with linked_id := older.linked_id,
                           link_precedence := LinkPrecedence.secondary })
    else s
  match findPrimaryContact s1 olderContact with
  | Except.error e => (s1, Except.error e)
  | Except.ok primaryContact =>
    (s1, buildNewContact primaryContact email_ phoneNumber_ (findSecondaryContacts s1 olderContact))

/-! ## Predicates of the specification -/

/-- The flat-star predicate of the data model: every row is primary with a NULL
`linked_id`, or secondary with a `linked_id` that is the `id` of a primary row of
the table. -/
def FlatStar (s : Store) : Prop :=
  ∀ r ∈ s,
    (r.link_precedence = LinkPrecedence.primary ∧ r.linked_id = none) ∨
    (r.link_precedence = LinkPrecedence.secondary ∧
      ∃ p ∈ s, p.link_precedence = LinkPrecedence.primary ∧ r.linked_id = some p.id)

/-- The primary key is unique in the table. -/
def UniqueIds (s : Store) : Prop :=
  (s.map (fun r => r.id)).Nodup

/-- Row `r'` is row `r` after the structural update of a merge that folds the
group rooted at `newerRoot` into the group rooted at `olderRoot`: a row whose
`id` or whose `linked_id` is `newerRoot` now has `linked_id = olderRoot` and is
secondary, and keeps its other columns; any other row is unchanged. -/
def MergedRow (newerRoot olderRoot : Option Nat) (r r' : Contact) : Prop :=
  ((some r.id = newerRoot ∨ r.linked_id = newerRoot) →
      r'.linked_id = olderRoot ∧ r'.link_precedence = LinkPrecedence.secondary ∧
      r'.id = r.id ∧ r'.email = r.email ∧ r'.phone_number = r.phone_number ∧
      r'.created_at = r.created_at) ∧
  (¬ (some r.id = newerRoot ∨ r.linked_id = newerRoot) → r' = r)

/-- Row `r'` is row `r` after an update that rewrites `linked_id` alone: a row
whose `id` or whose `linked_id` is `newerRoot` now has `linked_id = olderRoot` and
keeps every other column, `link_precedence` included; any other row is
unchanged. -/
def RelinkedRow (newerRoot olderRoot : Option Nat) (r r' : Contact) : Prop :=
  ((some r.id = newerRoot ∨ r.linked_id = newerRoot) →
      r'.linked_id = olderRoot ∧ r'.link_precedence = r.link_precedence ∧
      r'.id = r.id ∧ r'.email = r.email ∧ r'.phone_number = r.phone_number ∧
      r'.created_at = r.created_at) ∧
  (¬ (some r.id = newerRoot ∨ r.linked_id = newerRoot) → r' = r)

/-- Row `r'` carries the same record as row `r`: the same `id`, `email`,
`phone_number` and `created_at`; only `linked_id` and `link_precedence` may
differ. -/
def SameData (r r' : Contact) : Prop :=
  r'.id = r.id ∧ r'.email = r.email ∧ r'.phone_number = r.phone_number ∧
    r'.created_at = r.created_at

/-- The dedup law for a consolidated contact `v`, read against the table `s`: its
`emails` and its `phoneNumbers` hold no value twice, the table has a row whose `id`
is `v.primaryContactId`, and each list begins with the value stored on that row,
followed by the other value (`otherEmail`, `otherPhone`) unless the two are
equal. -/
def DedupLaw (s : Store) (v : ConsolidatedContact) (otherEmail otherPhone : JsValue) : Prop :=
  v.emails.Nodup ∧ v.phoneNumbers.Nodup ∧
  (∃ p ∈ s, p.id = v.primaryContactId) ∧
  ∀ p ∈ s, p.id = v.primaryContactId →
    v.emails =
      (if ofColumn p.email = otherEmail then [ofColumn p.email]
        else [ofColumn p.email, otherEmail]) ∧
    v.phoneNumbers =
      (if ofColumn p.phone_number = otherPhone then [ofColumn p.phone_number]
        else [ofColumn p.phone_number, otherPhone])

/-- What a failed call of `handleOneSecondaryContact` leaves in the table, `s` being
the table before and `s'` the table after.  Either `findPrimaryContact` gave
`null` for the secondary argument, the call failed before its update and the
table is unchanged; or `findPrimaryContact` gave a record, the call failed while
building the consolidated contact because the request has no phone number, and
then the table is unchanged when the guard skipped the update (the secondary's
`linked_id` is the primary's `id`) and otherwise carries the update in full: the
group of the newer of the two is relinked to the root of the older, the primary
argument counting as older when it was created strictly before the record the
secondary points to. -/
def OneSecondaryFailure (s s' : Store)
    (primaryPrecedentContact secondaryPrecedentContact : Contact) (phoneNumber_ : JsValue) :
    Prop :=
  (findPrimaryContact s secondaryPrecedentContact = Except.ok none ∧ s' = s) ∨
  (∃ tempPrimaryContact,
    findPrimaryContact s secondaryPrecedentContact = Except.ok (some tempPrimaryContact) ∧
    (phoneNumber_ = JsValue.undefined ∨ phoneNumber_ = JsValue.null) ∧
    (secondaryPrecedentContact.linked_id = some primaryPrecedentContact.id → s' = s) ∧
    (secondaryPrecedentContact.linked_id ≠ some primaryPrecedentContact.id →
      (primaryPrecedentContact.created_at < tempPrimaryContact.created_at →
        List.Forall₂
          (RelinkedRow (some (linkedIdOrId secondaryPrecedentContact))
            (some (linkedIdOrId primaryPrecedentContact))) s s') ∧
      (tempPrimaryContact.created_at ≤ primaryPrecedentContact.created_at →
        List.Forall₂
          (RelinkedRow (some (linkedIdOrId primaryPrecedentContact))
            (some (linkedIdOrId secondaryPrecedentContact))) s s')))

instance (s : Store) : Decidable (FlatStar s) := by
  unfold FlatStar; infer_instance

instance (s : Store) : Decidable (UniqueIds s) := by
  unfold UniqueIds; infer_instance

/-! ## Example rows -/

/-- A primary row with the given `id`, creation time, email and phone number. -/
def primaryRow (id created_at : Nat) (email phone_number : Option String) : Contact :=
  { id := id, email := email, phone_number := phone_number, linked_id := none,
    link_precedence := LinkPrecedence.primary, created_at := created_at }

/-- A secondary row with the given `id`, creation time, `linked_id`, email and phone
number. -/
def secondaryRow (id created_at linked_id : Nat) (email phone_number : Option String) :
    Contact :=
  { id := id, email := email, phone_number := phone_number, linked_id := some linked_id,
    link_precedence := LinkPrecedence.secondary, created_at := created_at }

/-! ## The update statement -/

theorem update_mergedRow (s : Store) (x v : Option Nat) :
    List.Forall₂ (MergedRow x v) s
      (update s x
        (fun r => { r with linked_id := v, link_precedence := LinkPrecedence.secondary })) := by
  unfold update
  rw [List.forall₂_map_right_iff, List.forall₂_same]
  intro r _
  unfold MergedRow matchesIdOrLinkedId
  by_cases h : some r.id = x ∨ r.linked_id = x
  · have hb : (decide (some r.id = x) || decide (r.linked_id = x)) = true := by simpa using h
    simp [hb, h]
  · have hb : (decide (some r.id = x) || decide (r.linked_id = x)) = false := by simpa using h
    simp [hb, h]

theorem update_relinkedRow (s : Store) (x v : Option Nat) :
    List.Forall₂ (RelinkedRow x v) s
      (update s x (fun r => { r with linked_id := v })) := by
  unfold update
  rw [List.forall₂_map_right_iff, List.forall₂_same]
  intro r _
  unfold RelinkedRow matchesIdOrLinkedId
  by_cases h : some r.id = x ∨ r.linked_id = x
  · have hb : (decide (some r.id = x) || decide (r.linked_id = x)) = true := by simpa using h
    simp [hb, h]
  · have hb : (decide (some r.id = x) || decide (r.linked_id = x)) = false := by simpa using h
    simp [hb, h]

theorem handleBothPrimaryContacts_store_of_le (s : Store) (A B : Contact)
    (h : A.created_at ≤ B.created_at) :
    (handleBothPrimaryContacts s A B).1 =
      update s (some B.id)
        (fun r => { r with linked_id := some A.id,
                           link_precedence := LinkPrecedence.secondary }) := by
  simp [handleBothPrimaryContacts, h]

theorem handleBothPrimaryContacts_store_of_lt (s : Store) (A B : Contact)
    (h : B.created_at < A.created_at) :
    (handleBothPrimaryContacts s A B).1 =
      update s (some A.id)
        (fun r => { r with linked_id := some B.id,
                           link_precedence := LinkPrecedence.secondary }) := by
  simp [handleBothPrimaryContacts, Nat.not_le.mpr h]

/-! ## Merging two primaries -/

/-- C2. MergePrimaries postcondition: when `older` was created strictly before
`newer`, the call of `handleBothPrimaryContacts` on the two, in either argument
order, leaves a table whose rows are those of the table before, position by
position, where every row whose `id` was `newer.id` or whose `linked_id` was
`newer.id` has `linked_id = older.id` and is secondary, and every other row is
unchanged.  This holds whether or not the call then manages to build its
consolidated contact. -/
theorem handleBothPrimaryContacts_postcondition (s : Store) (older newer : Contact)
    (h : older.created_at < newer.created_at) :
    List.Forall₂ (MergedRow (some newer.id) (some older.id)) s
        (handleBothPrimaryContacts s older newer).1 ∧
    List.Forall₂ (MergedRow (some newer.id) (some older.id)) s
        (handleBothPrimaryContacts s newer older).1 := by
  rw [handleBothPrimaryContacts_store_of_le s older newer (Nat.le_of_lt h),
    handleBothPrimaryContacts_store_of_lt s newer older h]
  exact ⟨update_mergedRow s _ _, update_mergedRow s _ _⟩

/-- Witness of C2: the primary 1, created at 100, and the primary 2, created at 200,
which has the secondary 3. -/
theorem handleBothPrimaryContacts_postcondition_witness :
    List.Forall₂ (MergedRow (some 2) (some 1))
        [primaryRow 1 100 (some "a") (some "1"), primaryRow 2 200 (some "b") (some "2"),
          secondaryRow 3 300 2 (some "c") (some "2")]
        (handleBothPrimaryContacts
          [primaryRow 1 100 (some "a") (some "1"), primaryRow 2 200 (some "b") (some "2"),
            secondaryRow 3 300 2 (some "c") (some "2")]
          (primaryRow 1 100 (some "a") (some "1")) (primaryRow 2 200 (some "b") (some "2"))).1 ∧
    List.Forall₂ (MergedRow (some 2) (some 1))
        [primaryRow 1 100 (some "a") (some "1"), primaryRow 2 200 (some "b") (some "2"),
          secondaryRow 3 300 2 (some "c") (some "2")]
        (handleBothPrimaryContacts
          [primaryRow 1 100 (some "a") (some "1"), primaryRow 2 200 (some "b") (some "2"),
            secondaryRow 3 300 2 (some "c") (some "2")]
          (primaryRow 2 200 (some "b") (some "2")) (primaryRow 1 100 (some "a") (some "1"))).1 :=
  handleBothPrimaryContacts_postcondition _
    (primaryRow 1 100 (some "a") (some "1")) (primaryRow 2 200 (some "b") (some "2"))
    (by decide)

theorem handleBothPrimaryContacts_view_of_le (s : Store) (A B : Contact)
    (h : A.created_at ≤ B.created_at) (v : ConsolidatedContact)
    (hv : (handleBothPrimaryContacts s A B).2 = Except.ok v) :
    v.primaryContactId = A.id := by
  simp only [handleBothPrimaryContacts, h, decide_True, if_true] at hv
  split at hv
  · exact absurd hv (by simp)
  · injection hv with hv
    rw [← hv]

/-- C7 (as amended). Tie-break in MergePrimaries: when the two records have the
same `created_at`, `handleBothPrimaryContacts` keeps its first argument as the
surviving primary and demotes its second argument, whatever their ids: after
`handleBothPrimaryContacts(A, B)` every row whose `id` or `linked_id` was `B.id`
points to `A.id` and is secondary, every other row is unchanged and a returned
consolidated contact names `A.id`; after `handleBothPrimaryContacts(B, A)` the
roles are exchanged. -/
theorem handleBothPrimaryContacts_tie_keeps_first (s : Store) (A B : Contact)
    (h : A.created_at = B.created_at) :
    (List.Forall₂ (MergedRow (some B.id) (some A.id)) s (handleBothPrimaryContacts s A B).1 ∧
      ∀ v, (handleBothPrimaryContacts s A B).2 = Except.ok v → v.primaryContactId = A.id) ∧
    (List.Forall₂ (MergedRow (some A.id) (some B.id)) s (handleBothPrimaryContacts s B A).1 ∧
      ∀ v, (handleBothPrimaryContacts s B A).2 = Except.ok v → v.primaryContactId = B.id) := by
  refine ⟨⟨?_, ?_⟩, ⟨?_, ?_⟩⟩
  · rw [handleBothPrimaryContacts_store_of_le s A B (Nat.le_of_eq h)]
    exact update_mergedRow s _ _
  · exact fun v hv => handleBothPrimaryContacts_view_of_le s A B (Nat.le_of_eq h) v hv
  · rw [handleBothPrimaryContacts_store_of_le s B A (Nat.le_of_eq h.symm)]
    exact update_mergedRow s _ _
  · exact fun v hv => handleBothPrimaryContacts_view_of_le s B A (Nat.le_of_eq h.symm) v hv

/-- Witness of C7 (as amended): two primaries created at the same time, ids 1 and 2. -/
theorem handleBothPrimaryContacts_tie_keeps_first_witness :
    (primaryRow 1 100 (some "a") (some "1")).created_at =
        (primaryRow 2 100 (some "b") (some "2")).created_at ∧
    ∀ v, (handleBothPrimaryContacts
            [primaryRow 1 100 (some "a") (some "1"), primaryRow 2 100 (some "b") (some "2")]
            (primaryRow 2 100 (some "b") (some "2"))
            (primaryRow 1 100 (some "a") (some "1"))).2 = Except.ok v →
        v.primaryContactId = 2 :=
  ⟨rfl, (handleBothPrimaryContacts_tie_keeps_first
      [primaryRow 1 100 (some "a") (some "1"), primaryRow 2 100 (some "b") (some "2")]
      (primaryRow 1 100 (some "a") (some "1")) (primaryRow 2 100 (some "b") (some "2"))
      rfl).2.2⟩

/-- Counterexample to C7 as stated: with equal `created_at`, the call with the
higher id first keeps the record with id 2 as the surviving primary and demotes
the record with the lower id 1. -/
theorem handleBothPrimaryContacts_tie_not_by_id :
    handleBothPrimaryContacts
        [primaryRow 1 100 (some "a") (some "1"), primaryRow 2 100 (some "b") (some "2")]
        (primaryRow 2 100 (some "b") (some "2")) (primaryRow 1 100 (some "a") (some "1")) =
      ([secondaryRow 1 100 2 (some "a") (some "1"), primaryRow 2 100 (some "b") (some "2")],
        Except.ok
          { primaryContactId := 2
            emails := [JsValue.str "b", JsValue.str "a"]
            phoneNumbers := [JsValue.str "2", JsValue.str "1"]
            secondaryContactIds := [1] }) := by
  decide

/-! ## Merging two secondaries -/

theorem handleBothSecondaryContacts_store (s : Store) (X Y : Contact)
    (email_ phoneNumber_ : JsValue) :
    (handleBothSecondaryContacts s X Y email_ phoneNumber_).1 =
      if X.linked_id ≠ Y.linked_id then
        update s (if jsLt X.linked_id Y.linked_id then Y.linked_id else X.linked_id)
          (fun r => { r with
            linked_id := if jsLt X.linked_id Y.linked_id then X.linked_id else Y.linked_id,
            link_precedence := LinkPrecedence.secondary })
      else s := by
  unfold handleBothSecondaryContacts findPrimaryContact
  by_cases hd : X.linked_id = Y.linked_id <;> by_cases hl : jsLt X.linked_id Y.linked_id = true <;>
    simp [hd, hl] <;> split <;> simp

theorem forall₂_mergedRow_not_left (s s' : Store) (x v : Option Nat) (hxv : v ≠ x)
    (h : List.Forall₂ (MergedRow x v) s s') : ∀ r ∈ s', r.linked_id ≠ x := by
  induction h with
  | nil => simp
  | @cons a b _ _ hr _ ih =>
    intro r hmem
    rcases List.mem_cons.mp hmem with rfl | hmem
    · by_cases hm : some a.id = x ∨ a.linked_id = x
      · rw [(hr.1 hm).1]; exact hxv
      · rw [hr.2 hm]; exact fun hc => hm (Or.inr hc)
    · exact ih r hmem

/-- C6. MergeSecondaries structural update: when `X.linked_id ≠ Y.linked_id`, the
operation chooses the two roots among the two `linked_id` values, the older root
being the one that is numerically not greater (`null` counting as 0); in the table
after the call every row whose `id` or `linked_id` was `newerRoot` has
`linked_id = olderRoot` and is secondary, every other row is unchanged, and no
row has `linked_id = newerRoot`. -/
theorem handleBothSecondaryContacts_structural_update (s : Store) (X Y : Contact)
    (email_ phoneNumber_ : JsValue) (h : X.linked_id ≠ Y.linked_id) :
    ∃ olderRoot newerRoot : Option Nat,
      ((olderRoot = X.linked_id ∧ newerRoot = Y.linked_id) ∨
        (olderRoot = Y.linked_id ∧ newerRoot = X.linked_id)) ∧
      olderRoot.getD 0 ≤ newerRoot.getD 0 ∧
      List.Forall₂ (MergedRow newerRoot olderRoot) s
        (handleBothSecondaryContacts s X Y email_ phoneNumber_).1 ∧
      ∀ r ∈ (handleBothSecondaryContacts s X Y email_ phoneNumber_).1,
        r.linked_id ≠ newerRoot := by
  rw [handleBothSecondaryContacts_store, if_pos h]
  by_cases hl : jsLt X.linked_id Y.linked_id = true
  · refine ⟨X.linked_id, Y.linked_id, Or.inl ⟨rfl, rfl⟩, ?_, ?_, ?_⟩
    · exact Nat.le_of_lt (by simpa [jsLt] using hl)
    · simp only [hl, if_true]; exact update_mergedRow s _ _
    · simp only [hl, if_true]
      exact forall₂_mergedRow_not_left s _ _ _ h (update_mergedRow s _ _)
  · refine ⟨Y.linked_id, X.linked_id, Or.inr ⟨rfl, rfl⟩, ?_, ?_, ?_⟩
    · exact Nat.le_of_not_lt (by simpa [jsLt] using hl)
    · simp only [hl]; exact update_mergedRow s _ _
    · simp only [hl]
      exact forall₂_mergedRow_not_left s _ _ _ (Ne.symm h) (update_mergedRow s _ _)

/-- Witness of C6: two secondaries of the groups rooted at 1 and 2. -/
theorem handleBothSecondaryContacts_structural_update_witness :
    ∃ olderRoot newerRoot : Option Nat,
      ((olderRoot = some 1 ∧ newerRoot = some 2) ∨ (olderRoot = some 2 ∧ newerRoot = some 1)) ∧
      olderRoot.getD 0 ≤ newerRoot.getD 0 ∧
      List.Forall₂ (MergedRow newerRoot olderRoot)
        [primaryRow 1 100 (some "a") (some "1"), primaryRow 2 200 (some "b") (some "2"),
          secondaryRow 3 300 1 (some "c") (some "1"), secondaryRow 4 400 2 (some "d") (some "2")]
        (handleBothSecondaryContacts
          [primaryRow 1 100 (some "a") (some "1"), primaryRow 2 200 (some "b") (some "2"),
            secondaryRow 3 300 1 (some "c") (some "1"),
            secondaryRow 4 400 2 (some "d") (some "2")]
          (secondaryRow 3 300 1 (some "c") (some "1"))
          (secondaryRow 4 400 2 (some "d") (some "2")) (JsValue.str "c") (JsValue.str "2")).1 ∧
      ∀ r ∈ (handleBothSecondaryContacts
          [primaryRow 1 100 (some "a") (some "1"), primaryRow 2 200 (some "b") (some "2"),
            secondaryRow 3 300 1 (some "c") (some "1"),
            secondaryRow 4 400 2 (some "d") (some "2")]
          (secondaryRow 3 300 1 (some "c") (some "1"))
          (secondaryRow 4 400 2 (some "d") (some "2")) (JsValue.str "c") (JsValue.str "2")).1,
        r.linked_id ≠ newerRoot :=
  handleBothSecondaryContacts_structural_update _
    (secondaryRow 3 300 1 (some "c") (some "1")) (secondaryRow 4 400 2 (some "d") (some "2"))
    (JsValue.str "c") (JsValue.str "2") (by decide)

/-! ## Resolving the primary of a record -/

/-- C10 (as amended). `findPrimaryContact` on a dangling link: for a secondary
record whose `linked_id` is not the `id` of any row, `findPrimaryContact` does not
fail; it returns `null`.  For a primary record it returns that record, and for a
secondary record whose `linked_id` is the `id` of a row it returns a row with that
`id`. -/
theorem findPrimaryContact_result (s : Store) (c : Contact) :
    (c.link_precedence = LinkPrecedence.primary →
      findPrimaryContact s c = Except.ok (some c)) ∧
    (c.link_precedence = LinkPrecedence.secondary → (∀ r ∈ s, some r.id ≠ c.linked_id) →
      findPrimaryContact s c = Except.ok none) ∧
    (c.link_precedence = LinkPrecedence.secondary → ∀ k, c.linked_id = some k →
      (∃ r ∈ s, r.id = k) →
      ∃ r ∈ s, r.id = k ∧ findPrimaryContact s c = Except.ok (some r)) := by
  refine ⟨?_, ?_, ?_⟩
  · intro hp
    simp [findPrimaryContact, hp]
  · intro hs hnone
    have hfind : findByPk s c.linked_id = none := by
      unfold findByPk
      rw [List.find?_eq_none]
      intro r hr
      simpa using hnone r hr
    simp [findPrimaryContact, hs, hfind]
  · intro hs k hk hex
    cases hfind : findByPk s c.linked_id with
    | none =>
      exfalso
      unfold findByPk at hfind
      rw [List.find?_eq_none] at hfind
      obtain ⟨r, hr, hrk⟩ := hex
      have := hfind r hr
      simp [hk, hrk] at this
    | some r =>
      refine ⟨r, ?_, ?_, ?_⟩
      · unfold findByPk at hfind
        exact List.mem_of_find?_eq_some hfind
      · unfold findByPk at hfind
        have := List.find?_some hfind
        simpa [hk] using this
      · simp [findPrimaryContact, hs, hfind]

/-- Witness of C10 (as amended): a secondary row that points to row 1 of the table,
and one that points to the missing row 7. -/
theorem findPrimaryContact_result_witness :
    findPrimaryContact [primaryRow 1 100 (some "a") (some "1")]
        (secondaryRow 2 200 7 (some "b") (some "1")) = Except.ok none ∧
    ∃ r ∈ [primaryRow 1 100 (some "a") (some "1")], r.id = 1 ∧
      findPrimaryContact [primaryRow 1 100 (some "a") (some "1")]
        (secondaryRow 2 200 1 (some "b") (some "1")) = Except.ok (some r) :=
  ⟨(findPrimaryContact_result [primaryRow 1 100 (some "a") (some "1")]
      (secondaryRow 2 200 7 (some "b") (some "1"))).2.1 rfl (by decide),
   (findPrimaryContact_result [primaryRow 1 100 (some "a") (some "1")]
      (secondaryRow 2 200 1 (some "b") (some "1"))).2.2 rfl 1 rfl
      ⟨primaryRow 1 100 (some "a") (some "1"), by decide, rfl⟩⟩

/-- Counterexample to C10 as stated: the secondary row 2 points to row 7, which is
not in the table, and `findPrimaryContact` returns `null` instead of failing. -/
theorem findPrimaryContact_dangling_returns_null :
    (secondaryRow 2 200 7 (some "b") (some "1")).link_precedence = LinkPrecedence.secondary ∧
    (∀ r ∈ [primaryRow 1 100 (some "a") (some "1")],
      some r.id ≠ (secondaryRow 2 200 7 (some "b") (some "1")).linked_id) ∧
    findPrimaryContact [primaryRow 1 100 (some "a") (some "1")]
        (secondaryRow 2 200 7 (some "b") (some "1")) = Except.ok none ∧
    ¬ ∃ e, findPrimaryContact [primaryRow 1 100 (some "a") (some "1")]
        (secondaryRow 2 200 7 (some "b") (some "1")) = Except.error e := by
  refine ⟨rfl, by decide, by decide, ?_⟩
  rintro ⟨e, he⟩
  simp [findPrimaryContact, secondaryRow] at he

/-! ## Building the consolidated contact -/

theorem consolidateContacts_without_phone (s : Store) (foundContact : Contact)
    (email_ : JsValue) :
    consolidateContacts s foundContact email_ JsValue.undefined =
        Except.error JsError.typeError ∧
    consolidateContacts s foundContact email_ JsValue.null =
        Except.error JsError.typeError := by
  unfold consolidateContacts findPrimaryContact buildNewContact
  constructor <;> split_ifs <;> simp only [jsToString] <;> split <;> rfl

/-- C9, at the failing input. The table holds the primary row 1 with email "a" and
phone "1"; the submission carries the email "a" and no phone number.  The group
primary of the found record exists, exactly one field is present, and
`consolidateContacts` ends in a `TypeError` (from `phoneNumber_.toString()`) instead
of returning a consolidated contact; with the phone alone present it returns
one. -/
theorem consolidateContacts_email_only_fails :
    findPrimaryContact [primaryRow 1 100 (some "a") (some "1")]
        (primaryRow 1 100 (some "a") (some "1")) =
      Except.ok (some (primaryRow 1 100 (some "a") (some "1"))) ∧
    consolidateContacts [primaryRow 1 100 (some "a") (some "1")]
        (primaryRow 1 100 (some "a") (some "1")) (JsValue.str "a") JsValue.undefined =
      Except.error JsError.typeError ∧
    consolidateContacts [primaryRow 1 100 (some "a") (some "1")]
        (primaryRow 1 100 (some "a") (some "1")) JsValue.undefined (JsValue.str "1") =
      Except.ok
        { primaryContactId := 1
          emails := [JsValue.str "a", JsValue.undefined]
          phoneNumbers := [JsValue.str "1"]
          secondaryContactIds := [] } := by
  decide

/-! ## Merging a primary with a secondary of another group -/

theorem findPrimaryContact_eq_ok (s : Store) (c : Contact) :
    findPrimaryContact s c =
      Except.ok (if c.link_precedence = LinkPrecedence.primary then some c
        else findByPk s c.linked_id) := by
  unfold findPrimaryContact
  split_ifs <;> rfl

theorem handleOneSecondaryContact_store (s : Store) (A B : Contact)
    (email_ phoneNumber_ : JsValue) :
    (handleOneSecondaryContact s A B email_ phoneNumber_).1 = s ∨
    (∃ older newer : Contact, ((older = A ∧ newer = B) ∨ (older = B ∧ newer = A)) ∧
      (handleOneSecondaryContact s A B email_ phoneNumber_).1 =
        update s (some (linkedIdOrId newer))
          (fun r => { r with linked_id := some (linkedIdOrId older) })) := by
  simp only [handleOneSecondaryContact, findPrimaryContact_eq_ok]
  by_cases hp : A.link_precedence = LinkPrecedence.primary
  · simp only [hp, decide_True, if_true]
    cases hq : (if B.link_precedence = LinkPrecedence.primary then some B
        else findByPk s B.linked_id) with
    | none => exact Or.inl rfl
    | some tempPrimaryContact =>
      by_cases hg : B.linked_id = some A.id
      · simp [hg]
      · by_cases hlt : A.created_at < tempPrimaryContact.created_at
        · exact Or.inr ⟨A, B, Or.inl ⟨rfl, rfl⟩, by simp [hg, hlt]⟩
        · exact Or.inr ⟨B, A, Or.inr ⟨rfl, rfl⟩, by simp [hg, hlt]⟩
  · simp only [hp, decide_False]
    cases hq : (if A.link_precedence = LinkPrecedence.primary then some A
        else findByPk s A.linked_id) with
    | none => simp [hp] at hq ⊢; simp [hq]
    | some tempPrimaryContact =>
      simp only [hp, if_false] at hq
      by_cases hg : A.linked_id = some B.id
      · rw [hg] at hq
        simp [hp, hg, hq]
      · by_cases hlt : B.created_at < tempPrimaryContact.created_at
        · exact Or.inr ⟨B, A, Or.inr ⟨rfl, rfl⟩, by simp [hp, hg, hlt, hq]⟩
        · exact Or.inr ⟨A, B, Or.inl ⟨rfl, rfl⟩, by simp [hp, hg, hlt, hq]⟩

theorem handleOneSecondaryContact_null_primary (s : Store) (P S : Contact)
    (email_ phoneNumber_ : JsValue) (hP : P.link_precedence = LinkPrecedence.primary)
    (hnull : findPrimaryContact s S = Except.ok none) :
    handleOneSecondaryContact s P S email_ phoneNumber_ = (s, Except.error JsError.typeError) := by
  simp [handleOneSecondaryContact, hP, hnull]

theorem findByPk_id (s : Store) (k : Nat) (r : Contact) (h : findByPk s (some k) = some r) :
    r.id = k := by
  unfold findByPk at h
  simpa using List.find?_some h

theorem buildNewContact_primaryContactId (primaryContact : Option Contact)
    (email_ phoneNumber_ : JsValue) (ids : List Nat) (v : ConsolidatedContact)
    (h : buildNewContact primaryContact email_ phoneNumber_ ids = Except.ok v) :
    ∃ p, primaryContact = some p ∧ v.primaryContactId = p.id := by
  unfold buildNewContact at h
  cases primaryContact with
  | none => simp at h
  | some p =>
    refine ⟨p, rfl, ?_⟩
    simp only at h
    split at h
    · simp at h
    · injection h with h
      rw [← h]

theorem handleOneSecondaryContact_view_primary (s : Store) (P S : Contact)
    (email_ phoneNumber_ : JsValue) (q : Nat) (v : ConsolidatedContact)
    (hP : P.link_precedence = LinkPrecedence.primary)
    (hS : S.link_precedence = LinkPrecedence.secondary) (hq : S.linked_id = some q) :
    ((handleOneSecondaryContact s P S email_ phoneNumber_).2 = Except.ok v →
      v.primaryContactId = q) ∧
    ((handleOneSecondaryContact s S P email_ phoneNumber_).2 = Except.ok v →
      v.primaryContactId = q) := by
  have hSn : ¬ S.link_precedence = LinkPrecedence.primary := by rw [hS]; decide
  constructor
  · intro hv
    simp only [handleOneSecondaryContact, findPrimaryContact_eq_ok, hP, hSn, decide_True,
      if_true, if_false, hq] at hv
    cases hfind : findByPk s (some q) with
    | none => simp [hfind] at hv
    | some temp =>
      simp only [hfind] at hv
      obtain ⟨p, hp, hid⟩ := buildNewContact_primaryContactId _ _ _ _ _ hv
      rw [hid]
      exact findByPk_id _ _ _ hp
  · intro hv
    simp only [handleOneSecondaryContact, findPrimaryContact_eq_ok, hP, hSn, decide_False,
      Bool.false_eq_true, if_true, if_false, hq] at hv
    cases hfind : findByPk s (some q) with
    | none => simp [hfind] at hv
    | some temp =>
      simp only [hfind] at hv
      obtain ⟨p, hp, hid⟩ := buildNewContact_primaryContactId _ _ _ _ _ hv
      rw [hid]
      exact findByPk_id _ _ _ hp

theorem handleOneSecondaryContact_link_precedence_unchanged (s : Store) (A B : Contact)
    (email_ phoneNumber_ : JsValue) :
    List.Forall₂ (fun r r' => r'.id = r.id ∧ r'.link_precedence = r.link_precedence) s
      (handleOneSecondaryContact s A B email_ phoneNumber_).1 := by
  rcases handleOneSecondaryContact_store s A B email_ phoneNumber_ with h | ⟨o, n, _, h⟩
  · rw [h, List.forall₂_same]
    exact fun _ _ => ⟨rfl, rfl⟩
  · rw [h]
    refine List.Forall₂.imp ?_ (update_relinkedRow s _ _)
    intro r r' hr
    by_cases hm : some r.id = some (linkedIdOrId n) ∨ r.linked_id = some (linkedIdOrId n)
    · exact ⟨(hr.1 hm).2.2.1, (hr.1 hm).2.1⟩
    · rw [hr.2 hm]
      exact ⟨rfl, rfl⟩

/-! ## Evaluations of the one-secondary and both-secondary merges -/

/-- C1, at the failing input. The table holds the primaries 1 (created at 100) and 2
(created at 200) and the secondary 3 of primary 2; it is flat-star with unique
ids.  `handleOneSecondaryContact` on the primary 1 and the secondary 3 links row 2
to row 1 without changing its `link_precedence`, so that row 2 is left primary
with a non-null `linked_id`: the table after the call is not flat-star. -/
theorem handleOneSecondaryContact_breaks_flatStar :
    FlatStar [primaryRow 1 100 (some "a") (some "1"), primaryRow 2 200 (some "b") (some "2"),
      secondaryRow 3 300 2 (some "c") (some "2")] ∧
    UniqueIds [primaryRow 1 100 (some "a") (some "1"), primaryRow 2 200 (some "b") (some "2"),
      secondaryRow 3 300 2 (some "c") (some "2")] ∧
    (handleOneSecondaryContact
        [primaryRow 1 100 (some "a") (some "1"), primaryRow 2 200 (some "b") (some "2"),
          secondaryRow 3 300 2 (some "c") (some "2")]
        (primaryRow 1 100 (some "a") (some "1")) (secondaryRow 3 300 2 (some "c") (some "2"))
        (JsValue.str "a") (JsValue.str "2")).1 =
      [primaryRow 1 100 (some "a") (some "1"),
        { primaryRow 2 200 (some "b") (some "2") with linked_id := some 1 },
        secondaryRow 3 300 1 (some "c") (some "2")] ∧
    ¬ FlatStar (handleOneSecondaryContact
        [primaryRow 1 100 (some "a") (some "1"), primaryRow 2 200 (some "b") (some "2"),
          secondaryRow 3 300 2 (some "c") (some "2")]
        (primaryRow 1 100 (some "a") (some "1")) (secondaryRow 3 300 2 (some "c") (some "2"))
        (JsValue.str "a") (JsValue.str "2")).1 := by
  decide

/-- C3, at the failing input. The table holds the primary 1 (created at 100) with
its secondary 2, and the primary 3 (created at 300) with its secondary 4.
`handleOneSecondaryContact` on the primary 3 and the secondary 2, in either
argument order, repoints the newer group (rows 3 and 4) to row 1, but row 3, the
newer primary, keeps `link_precedence = primary`. -/
theorem handleOneSecondaryContact_keeps_newer_primary :
    (handleOneSecondaryContact
        [primaryRow 1 100 (some "a") (some "1"), secondaryRow 2 150 1 (some "b") (some "1"),
          primaryRow 3 300 (some "c") (some "3"), secondaryRow 4 400 3 (some "d") (some "3")]
        (primaryRow 3 300 (some "c") (some "3")) (secondaryRow 2 150 1 (some "b") (some "1"))
        (JsValue.str "c") (JsValue.str "1")).1 =
      [primaryRow 1 100 (some "a") (some "1"), secondaryRow 2 150 1 (some "b") (some "1"),
        { primaryRow 3 300 (some "c") (some "3") with linked_id := some 1 },
        secondaryRow 4 400 1 (some "d") (some "3")] ∧
    (handleOneSecondaryContact
        [primaryRow 1 100 (some "a") (some "1"), secondaryRow 2 150 1 (some "b") (some "1"),
          primaryRow 3 300 (some "c") (some "3"), secondaryRow 4 400 3 (some "d") (some "3")]
        (secondaryRow 2 150 1 (some "b") (some "1")) (primaryRow 3 300 (some "c") (some "3"))
        (JsValue.str "c") (JsValue.str "1")).1 =
      [primaryRow 1 100 (some "a") (some "1"), secondaryRow 2 150 1 (some "b") (some "1"),
        { primaryRow 3 300 (some "c") (some "3") with linked_id := some 1 },
        secondaryRow 4 400 1 (some "d") (some "3")] ∧
    ({ primaryRow 3 300 (some "c") (some "3") with linked_id := some 1 } : Contact).link_precedence
      = LinkPrecedence.primary := by
  decide

/-- C4, at the failing input. The primary 1 (created at 100) is older than the
primary 2 (created at 200), whose secondary is row 3.  `handleOneSecondaryContact`
on the primary 1 and the secondary 3 folds the group of 2 into the group of 1, yet
the consolidated contact it returns names row 2, the newer primary, read through
the `linked_id` that the secondary had before the update; its list of secondary
ids, taken from row 1, contains 2 itself. -/
theorem handleOneSecondaryContact_view_names_newer :
    (primaryRow 1 100 (some "a") (some "1")).created_at <
      (primaryRow 2 200 (some "b") (some "2")).created_at ∧
    (handleOneSecondaryContact
        [primaryRow 1 100 (some "a") (some "1"), primaryRow 2 200 (some "b") (some "2"),
          secondaryRow 3 300 2 (some "c") (some "2")]
        (primaryRow 1 100 (some "a") (some "1")) (secondaryRow 3 300 2 (some "c") (some "2"))
        (JsValue.str "a") (JsValue.str "2")).2 =
      Except.ok
        { primaryContactId := 2
          emails := [JsValue.str "b", JsValue.str "a"]
          phoneNumbers := [JsValue.str "2"]
          secondaryContactIds := [2, 3] } := by
  decide

/-- C5, at the failing input. The root with id 1 was created at 200 and the root with
id 2 at 100, so root 2 is the older one.  `handleBothSecondaryContacts` on their
secondaries 3 and 4 compares the two `linked_id` values as numbers, keeps root 1
and demotes root 2: every row of both groups points to 1 and the consolidated
contact names 1. -/
theorem handleBothSecondaryContacts_keeps_lower_id :
    (primaryRow 2 100 (some "b") (some "2")).created_at <
      (primaryRow 1 200 (some "a") (some "1")).created_at ∧
    handleBothSecondaryContacts
        [primaryRow 1 200 (some "a") (some "1"), primaryRow 2 100 (some "b") (some "2"),
          secondaryRow 3 300 1 (some "c") (some "1"), secondaryRow 4 400 2 (some "d") (some "2")]
        (secondaryRow 3 300 1 (some "c") (some "1")) (secondaryRow 4 400 2 (some "d") (some "2"))
        (JsValue.str "c") (JsValue.str "2") =
      ([primaryRow 1 200 (some "a") (some "1"), secondaryRow 2 100 1 (some "b") (some "2"),
          secondaryRow 3 300 1 (some "c") (some "1"), secondaryRow 4 400 1 (some "d") (some "2")],
        Except.ok
          { primaryContactId := 1
            emails := [JsValue.str "a", JsValue.str "c"]
            phoneNumbers := [JsValue.str "1", JsValue.str "2"]
            secondaryContactIds := [2, 3, 4] }) := by
  decide

/-! ## The flat-star predicate under the merge update and under insertion -/

theorem mem_update_of_not_matches (s : Store) (x : Option Nat) (values : Contact → Contact)
    (r : Contact) (hr : r ∈ s) (hm : matchesIdOrLinkedId x r = false) :
    r ∈ update s x values := by
  unfold update
  exact List.mem_map.mpr ⟨r, hr, by simp [hm]⟩

theorem flatStar_update_merge (s : Store) (n o : Nat) (hne : o ≠ n) (hs : FlatStar s)
    (ho : ∃ q ∈ s, q.link_precedence = LinkPrecedence.primary ∧ q.id = o) :
    FlatStar (update s (some n)
      (fun r => { r with linked_id := some o, link_precedence := LinkPrecedence.secondary })) := by
  have keep : ∀ q ∈ s, q.link_precedence = LinkPrecedence.primary → q.id ≠ n →
      q ∈ update s (some n)
        (fun r => { r with linked_id := some o,
                           link_precedence := LinkPrecedence.secondary }) := by
    intro q hq hprim hid
    apply mem_update_of_not_matches s _ _ q hq
    rcases hs q hq with ⟨_, hnone⟩ | ⟨hsec, _⟩
    · simp [matchesIdOrLinkedId, hnone, hid]
    · rw [hprim] at hsec; exact absurd hsec (by decide)
  obtain ⟨q, hq, hqprim, hqid⟩ := ho
  intro r' hr'
  unfold update at hr'
  obtain ⟨r, hr, rfl⟩ := List.mem_map.mp hr'
  by_cases hm : matchesIdOrLinkedId (some n) r = true
  · right
    rw [if_pos hm]
    exact ⟨rfl, q, keep q hq hqprim (by rw [hqid]; exact hne), hqprim, by rw [hqid]⟩
  · simp only [hm]
    rcases hs r hr with hprim | ⟨hsec, p, hp, hpprim, hlink⟩
    · exact Or.inl hprim
    · right
      refine ⟨hsec, p, keep p hp hpprim ?_, hpprim, hlink⟩
      intro hpn
      apply hm
      simp [matchesIdOrLinkedId, hlink, hpn]

theorem handleBothPrimaryContacts_preserves_flatStar (s : Store) (A B : Contact)
    (hs : FlatStar s) (hA : A ∈ s) (hB : B ∈ s)
    (hAp : A.link_precedence = LinkPrecedence.primary)
    (hBp : B.link_precedence = LinkPrecedence.primary) (hne : A.id ≠ B.id) :
    FlatStar (handleBothPrimaryContacts s A B).1 := by
  by_cases h : A.created_at ≤ B.created_at
  · rw [handleBothPrimaryContacts_store_of_le s A B h]
    exact flatStar_update_merge s B.id A.id hne hs ⟨A, hA, hAp, rfl⟩
  · rw [handleBothPrimaryContacts_store_of_lt s A B (Nat.lt_of_not_le h)]
    exact flatStar_update_merge s A.id B.id (Ne.symm hne) hs ⟨B, hB, hBp, rfl⟩

theorem handleBothSecondaryContacts_preserves_flatStar (s : Store) (X Y : Contact)
    (email_ phoneNumber_ : JsValue) (hs : FlatStar s) (hX : X ∈ s) (hY : Y ∈ s)
    (hXs : X.link_precedence = LinkPrecedence.secondary)
    (hYs : Y.link_precedence = LinkPrecedence.secondary) :
    FlatStar (handleBothSecondaryContacts s X Y email_ phoneNumber_).1 := by
  have root : ∀ Z ∈ s, Z.link_precedence = LinkPrecedence.secondary →
      ∃ q ∈ s, q.link_precedence = LinkPrecedence.primary ∧ Z.linked_id = some q.id := by
    intro Z hZ hZs
    rcases hs Z hZ with ⟨hprim, _⟩ | ⟨_, h⟩
    · rw [hZs] at hprim; exact absurd hprim (by decide)
    · exact h
  obtain ⟨qx, hqx, hqxp, hxl⟩ := root X hX hXs
  obtain ⟨qy, hqy, hqyp, hyl⟩ := root Y hY hYs
  rw [handleBothSecondaryContacts_store]
  by_cases hd : X.linked_id = Y.linked_id
  · simpa [hd] using hs
  · rw [if_pos hd]
    have hne : qx.id ≠ qy.id := by
      intro h; apply hd; rw [hxl, hyl, h]
    rw [hxl, hyl]
    by_cases hl : jsLt (some qx.id) (some qy.id) = true
    · simp only [hl, if_true]
      exact flatStar_update_merge s qy.id qx.id hne hs ⟨qx, hqx, hqxp, rfl⟩
    · simp only [hl, if_false]
      exact flatStar_update_merge s qx.id qy.id (Ne.symm hne) hs ⟨qy, hqy, hqyp, rfl⟩

theorem createContact_preserves_flatStar (s : Store) (now : Nat) (foundContact : Contact)
    (email_ phoneNumber_ : JsValue) (hs : FlatStar s) (hf : foundContact ∈ s) :
    FlatStar (createContact s now foundContact email_ phoneNumber_).1 := by
  have old : ∀ r ∈ s,
      (r.link_precedence = LinkPrecedence.primary ∧ r.linked_id = none) ∨
      (r.link_precedence = LinkPrecedence.secondary ∧
        ∃ p ∈ s ++ [(createContact s now foundContact email_ phoneNumber_).2],
          p.link_precedence = LinkPrecedence.primary ∧ r.linked_id = some p.id) := by
    intro r hr
    rcases hs r hr with h | ⟨hsec, p, hp, hpp, hl⟩
    · exact Or.inl h
    · exact Or.inr ⟨hsec, p, List.mem_append_left _ hp, hpp, hl⟩
  intro r hr
  simp only [createContact, create] at hr
  rcases List.mem_append.mp hr with hr | hr
  · simpa [createContact, create] using old r hr
  · rw [List.mem_singleton] at hr
    subst hr
    right
    refine ⟨rfl, ?_⟩
    rcases hs foundContact hf with ⟨hprim, _⟩ | ⟨hsec, p, hp, hpp, hl⟩
    · exact ⟨foundContact, by simp [createContact, create, hf], hprim, by simp [hprim]⟩
    · refine ⟨p, by simp [createContact, create, hp], hpp, ?_⟩
      simp [hsec, hl]

/-! ## The secondaries of a group -/

theorem findAllIdsByLinkedId_sorted (s : Store) (v : Option Nat) :
    List.Sorted (· ≤ ·) (findAllIdsByLinkedId s v) :=
  List.sorted_insertionSort _ _

theorem findAllIdsByLinkedId_perm (s : Store) (v : Option Nat) :
    List.Perm (findAllIdsByLinkedId s v)
      ((s.filter (fun r => decide (r.linked_id = v))).map (fun r => r.id)) :=
  List.perm_insertionSort _ _

theorem mem_findAllIdsByLinkedId (s : Store) (v : Option Nat) (i : Nat) :
    i ∈ findAllIdsByLinkedId s v ↔ ∃ c ∈ s, c.id = i ∧ c.linked_id = v := by
  rw [(findAllIdsByLinkedId_perm s v).mem_iff, List.mem_map]
  constructor
  · rintro ⟨c, hc, rfl⟩
    rw [List.mem_filter] at hc
    exact ⟨c, hc.1, rfl, by simpa using hc.2⟩
  · rintro ⟨c, hc, rfl, hv⟩
    exact ⟨c, List.mem_filter.mpr ⟨hc, by simpa using hv⟩, rfl⟩

theorem findAllIdsByLinkedId_nodup (s : Store) (v : Option Nat) (hu : UniqueIds s) :
    (findAllIdsByLinkedId s v).Nodup := by
  rw [(findAllIdsByLinkedId_perm s v).nodup_iff]
  exact List.Nodup.sublist (List.Sublist.map _ (List.filter_sublist s)) hu

/-- C11. `findSecondaryContacts` returns exactly the secondaries of the group, in
order: in a table with unique ids, with `p = r.id` when `r` is primary and
`p = r.linked_id` otherwise, the result is strictly ascending (so each id occurs
once), an id is in the result exactly when it is the `id` of a row whose
`linked_id` is `p`, and the result is empty when no row has `linked_id = p`. -/
theorem findSecondaryContacts_exact (s : Store) (r : Contact) (hu : UniqueIds s) :
    List.Sorted (· < ·) (findSecondaryContacts s r) ∧
    (∀ i, i ∈ findSecondaryContacts s r ↔
      ∃ c ∈ s, c.id = i ∧
        c.linked_id =
          (if r.link_precedence = LinkPrecedence.primary then some r.id else r.linked_id)) ∧
    ((∀ c ∈ s, c.linked_id ≠
          (if r.link_precedence = LinkPrecedence.primary then some r.id else r.linked_id)) →
      findSecondaryContacts s r = []) := by
  refine ⟨?_, ?_, ?_⟩
  · exact (findAllIdsByLinkedId_sorted s _).lt_of_le (findAllIdsByLinkedId_nodup s _ hu)
  · intro i
    exact mem_findAllIdsByLinkedId s _ i
  · intro hnone
    apply List.eq_nil_iff_forall_not_mem.mpr
    intro i hi
    obtain ⟨c, hc, _, hv⟩ := (mem_findAllIdsByLinkedId s _ i).mp hi
    exact hnone c hc hv

/-- Witness of C11: the primary 1 with the secondaries 3 and 2, stored in that
order, and the primary 4 without secondaries. -/
theorem findSecondaryContacts_exact_witness :
    findSecondaryContacts
        [primaryRow 1 100 (some "a") (some "1"), secondaryRow 3 300 1 (some "c") (some "1"),
          secondaryRow 2 200 1 (some "b") (some "1"), primaryRow 4 400 (some "d") (some "4")]
        (secondaryRow 3 300 1 (some "c") (some "1")) = [2, 3] ∧
    List.Sorted (· < ·) (findSecondaryContacts
        [primaryRow 1 100 (some "a") (some "1"), secondaryRow 3 300 1 (some "c") (some "1"),
          secondaryRow 2 200 1 (some "b") (some "1"), primaryRow 4 400 (some "d") (some "4")]
        (secondaryRow 3 300 1 (some "c") (some "1"))) :=
  ⟨by decide,
   (findSecondaryContacts_exact
      [primaryRow 1 100 (some "a") (some "1"), secondaryRow 3 300 1 (some "c") (some "1"),
        secondaryRow 2 200 1 (some "b") (some "1"), primaryRow 4 400 (some "d") (some "4")]
      (secondaryRow 3 300 1 (some "c") (some "1")) (by decide)).1⟩

/-! ## What a merge leaves in place -/

theorem update_sameData (s : Store) (x : Option Nat) (values : Contact → Contact)
    (hv : ∀ r, SameData r (values r)) :
    List.Forall₂ SameData s (update s x values) := by
  unfold update
  rw [List.forall₂_map_right_iff, List.forall₂_same]
  intro r _
  split_ifs
  · exact hv r
  · exact ⟨rfl, rfl, rfl, rfl⟩

theorem forall₂_sameData_refl (s : Store) : List.Forall₂ SameData s s := by
  rw [List.forall₂_same]
  exact fun _ _ => ⟨rfl, rfl, rfl, rfl⟩

theorem handleBothPrimaryContacts_sameData (s : Store) (A B : Contact) :
    List.Forall₂ SameData s (handleBothPrimaryContacts s A B).1 := by
  by_cases h : A.created_at ≤ B.created_at
  · rw [handleBothPrimaryContacts_store_of_le s A B h]
    exact update_sameData s _ _ (fun _ => ⟨rfl, rfl, rfl, rfl⟩)
  · rw [handleBothPrimaryContacts_store_of_lt s A B (Nat.lt_of_not_le h)]
    exact update_sameData s _ _ (fun _ => ⟨rfl, rfl, rfl, rfl⟩)

theorem handleOneSecondaryContact_sameData (s : Store) (A B : Contact)
    (email_ phoneNumber_ : JsValue) :
    List.Forall₂ SameData s (handleOneSecondaryContact s A B email_ phoneNumber_).1 := by
  rcases handleOneSecondaryContact_store s A B email_ phoneNumber_ with h | ⟨o, n, _, h⟩
  · rw [h]; exact forall₂_sameData_refl s
  · rw [h]; exact update_sameData s _ _ (fun _ => ⟨rfl, rfl, rfl, rfl⟩)

theorem handleBothSecondaryContacts_sameData (s : Store) (X Y : Contact)
    (email_ phoneNumber_ : JsValue) :
    List.Forall₂ SameData s (handleBothSecondaryContacts s X Y email_ phoneNumber_).1 := by
  rw [handleBothSecondaryContacts_store]
  by_cases hd : X.linked_id ≠ Y.linked_id
  · rw [if_pos hd]
    exact update_sameData s _ _ (fun _ => ⟨rfl, rfl, rfl, rfl⟩)
  · rw [if_neg hd]
    exact forall₂_sameData_refl s

theorem forall₂_sameData_ids (s s' : Store) (h : List.Forall₂ SameData s s') :
    s'.map (fun r => r.id) = s.map (fun r => r.id) := by
  induction h with
  | nil => rfl
  | cons hr _ ih => simp [hr.1, ih]

/-- C15. Only links mutate: after any call of `handleBothPrimaryContacts`,
`handleOneSecondaryContact` or `handleBothSecondaryContacts`, whether it returns or
fails, the table has the same rows as before, position by position, each with the
`id`, `email`, `phone_number` and `created_at` it had (so no row is added or
removed and the list of ids is the same); only `linked_id` and `link_precedence`
may differ. -/
theorem merge_only_links_mutate (s : Store) (A B : Contact) (email_ phoneNumber_ : JsValue) :
    (List.Forall₂ SameData s (handleBothPrimaryContacts s A B).1 ∧
      (handleBothPrimaryContacts s A B).1.map (fun r => r.id) = s.map (fun r => r.id)) ∧
    (List.Forall₂ SameData s (handleOneSecondaryContact s A B email_ phoneNumber_).1 ∧
      (handleOneSecondaryContact s A B email_ phoneNumber_).1.map (fun r => r.id) =
        s.map (fun r => r.id)) ∧
    (List.Forall₂ SameData s (handleBothSecondaryContacts s A B email_ phoneNumber_).1 ∧
      (handleBothSecondaryContacts s A B email_ phoneNumber_).1.map (fun r => r.id) =
        s.map (fun r => r.id)) :=
  ⟨⟨handleBothPrimaryContacts_sameData s A B,
      forall₂_sameData_ids _ _ (handleBothPrimaryContacts_sameData s A B)⟩,
    ⟨handleOneSecondaryContact_sameData s A B email_ phoneNumber_,
      forall₂_sameData_ids _ _ (handleOneSecondaryContact_sameData s A B email_ phoneNumber_)⟩,
    ⟨handleBothSecondaryContacts_sameData s A B email_ phoneNumber_,
      forall₂_sameData_ids _ _
        (handleBothSecondaryContacts_sameData s A B email_ phoneNumber_)⟩⟩

/-! ## Running a merge again, and exchanging its arguments -/

theorem update_merge_idem (s : Store) (x v : Option Nat) :
    update
        (update s x
          (fun r => { r with linked_id := v, link_precedence := LinkPrecedence.secondary }))
        x (fun r => { r with linked_id := v, link_precedence := LinkPrecedence.secondary }) =
      update s x
        (fun r => { r with linked_id := v, link_precedence := LinkPrecedence.secondary }) := by
  unfold update
  rw [List.map_map]
  apply List.map_congr_left
  intro r _
  by_cases hm : matchesIdOrLinkedId x r = true
  · simp only [Function.comp, hm, if_true]
    split_ifs <;> rfl
  · simp only [Function.comp, hm]
    simp [hm]

/-- C19. Re-running a merge changes nothing more: when `handleBothPrimaryContacts` is
called a second time with the same two argument records, as read before the first
call, on the table the first call left, the table it leaves is the table the first
call left, and its outcome (the consolidated contact, or the error) is the
outcome of the first call. -/
theorem handleBothPrimaryContacts_rerun (s : Store) (A B : Contact) :
    (handleBothPrimaryContacts (handleBothPrimaryContacts s A B).1 A B).1 =
      (handleBothPrimaryContacts s A B).1 ∧
    (handleBothPrimaryContacts (handleBothPrimaryContacts s A B).1 A B).2 =
      (handleBothPrimaryContacts s A B).2 := by
  unfold handleBothPrimaryContacts
  simp only [update_merge_idem, and_self]

theorem findByPk_isSome_of_mem (s : Store) (q : Contact) (hq : q ∈ s) :
    ∃ r, findByPk s (some q.id) = some r := by
  cases h : findByPk s (some q.id) with
  | some r => exact ⟨r, rfl⟩
  | none =>
    unfold findByPk at h
    rw [List.find?_eq_none] at h
    exact absurd (h q hq) (by simp)

theorem exists_mem_of_sameData (s s' : Store) (h : List.Forall₂ SameData s s') (q : Contact)
    (hq : q ∈ s) : ∃ q' ∈ s', SameData q q' := by
  induction h with
  | nil => simp at hq
  | @cons a b _ _ hab _ ih =>
    rcases List.mem_cons.mp hq with rfl | hq
    · exact ⟨b, List.mem_cons_self _ _, hab⟩
    · obtain ⟨q', hq', hd⟩ := ih hq
      exact ⟨q', List.mem_cons_of_mem _ hq', hd⟩

theorem exists_mem_of_sameData_right (s s' : Store) (h : List.Forall₂ SameData s s')
    (q' : Contact) (hq' : q' ∈ s') : ∃ q ∈ s, SameData q q' := by
  induction h with
  | nil => simp at hq'
  | @cons a b _ _ hab _ ih =>
    rcases List.mem_cons.mp hq' with rfl | hq'
    · exact ⟨a, List.mem_cons_self _ _, hab⟩
    · obtain ⟨q, hq, hd⟩ := ih hq'
      exact ⟨q, List.mem_cons_of_mem _ hq, hd⟩

theorem findByPk_isSome_of_sameData (s s' : Store) (h : List.Forall₂ SameData s s')
    (q : Contact) (hq : q ∈ s) : ∃ r, findByPk s' (some q.id) = some r := by
  obtain ⟨q', hq', hd⟩ := exists_mem_of_sameData s s' h q hq
  rw [← hd.1]
  exact findByPk_isSome_of_mem s' q' hq'

theorem buildNewContact_ok (p : Contact) (email_ : JsValue) (ph : String) (ids : List Nat) :
    buildNewContact (some p) email_ (JsValue.str ph) ids =
      Except.ok
        { primaryContactId := p.id
          emails := arrayFromSet [ofColumn p.email, email_]
          phoneNumbers := arrayFromSet [ofColumn p.phone_number, JsValue.str ph]
          secondaryContactIds := ids } := rfl

theorem handleBothSecondaryContacts_eq (s : Store) (X Y : Contact)
    (email_ phoneNumber_ : JsValue) (a b : Nat)
    (hX : X.link_precedence = LinkPrecedence.secondary)
    (hY : Y.link_precedence = LinkPrecedence.secondary)
    (ha : X.linked_id = some a) (hb : Y.linked_id = some b) :
    handleBothSecondaryContacts s X Y email_ phoneNumber_ =
      (if a = b then s
        else update s (some (max a b))
          (fun r => { r with linked_id := some (min a b),
                             link_precedence := LinkPrecedence.secondary }),
       buildNewContact
        (findByPk
          (if a = b then s
            else update s (some (max a b))
              (fun r => { r with linked_id := some (min a b),
                                 link_precedence := LinkPrecedence.secondary }))
          (some (min a b)))
        email_ phoneNumber_
        (findAllIdsByLinkedId
          (if a = b then s
            else update s (some (max a b))
              (fun r => { r with linked_id := some (min a b),
                                 link_precedence := LinkPrecedence.secondary }))
          (some (min a b)))) := by
  have hXn : ¬ X.link_precedence = LinkPrecedence.primary := by rw [hX]; decide
  have hYn : ¬ Y.link_precedence = LinkPrecedence.primary := by rw [hY]; decide
  rcases Nat.lt_trichotomy a b with hlt | heq | hgt
  · have hne : a ≠ b := Nat.ne_of_lt hlt
    simp [handleBothSecondaryContacts, findPrimaryContact_eq_ok, findSecondaryContacts, jsLt,
      hXn, ha, hb, hne, hlt, Nat.min_eq_left (Nat.le_of_lt hlt),
      Nat.max_eq_right (Nat.le_of_lt hlt)]
  · subst heq
    simp [handleBothSecondaryContacts, findPrimaryContact_eq_ok, findSecondaryContacts, jsLt,
      hXn, ha, hb]
  · have hne : a ≠ b := Nat.ne_of_gt hgt
    simp [handleBothSecondaryContacts, findPrimaryContact_eq_ok, findSecondaryContacts, jsLt,
      hYn, ha, hb, hne, Nat.lt_asymm hgt, Nat.min_eq_right (Nat.le_of_lt hgt),
      Nat.max_eq_left (Nat.le_of_lt hgt)]

/-- C20. Argument order does not matter for MergeSecondaries: for two secondary
records whose `linked_id` is the `id` of a row of the table,
`handleBothSecondaryContacts(X, Y, email, phone)` and
`handleBothSecondaryContacts(Y, X, email, phone)` leave the same table and have the
same outcome; with a phone number in the request, that outcome is a consolidated
contact. -/
theorem handleBothSecondaryContacts_comm (s : Store) (X Y : Contact)
    (email_ phoneNumber_ : JsValue)
    (hX : X.link_precedence = LinkPrecedence.secondary)
    (hY : Y.link_precedence = LinkPrecedence.secondary)
    (hXl : ∃ q ∈ s, X.linked_id = some q.id) (hYl : ∃ q ∈ s, Y.linked_id = some q.id) :
    handleBothSecondaryContacts s X Y email_ phoneNumber_ =
      handleBothSecondaryContacts s Y X email_ phoneNumber_ ∧
    ∀ ph : String, ∃ v,
      (handleBothSecondaryContacts s X Y email_ (JsValue.str ph)).2 = Except.ok v ∧
      (handleBothSecondaryContacts s Y X email_ (JsValue.str ph)).2 = Except.ok v := by
  obtain ⟨qx, hqx, ha⟩ := hXl
  obtain ⟨qy, hqy, hb⟩ := hYl
  have comm : ∀ p : JsValue, handleBothSecondaryContacts s X Y email_ p =
      handleBothSecondaryContacts s Y X email_ p := by
    intro p
    rw [handleBothSecondaryContacts_eq s X Y email_ p qx.id qy.id hX hY ha hb,
      handleBothSecondaryContacts_eq s Y X email_ p qy.id qx.id hY hX hb ha,
      Nat.max_comm qy.id qx.id, Nat.min_comm qy.id qx.id]
    by_cases h : qx.id = qy.id
    · simp [h]
    · simp [h, Ne.symm h]
  refine ⟨comm phoneNumber_, fun ph => ?_⟩
  rw [← comm (JsValue.str ph)]
  have hmin : ∃ q ∈ s, q.id = min qx.id qy.id := by
    rcases Nat.le_total qx.id qy.id with h | h
    · exact ⟨qx, hqx, (Nat.min_eq_left h).symm⟩
    · exact ⟨qy, hqy, (Nat.min_eq_right h).symm⟩
  obtain ⟨q, hq, hqid⟩ := hmin
  have hsame := handleBothSecondaryContacts_sameData s X Y email_ (JsValue.str ph)
  rw [handleBothSecondaryContacts_eq s X Y email_ (JsValue.str ph) qx.id qy.id hX hY ha hb]
    at hsame ⊢
  obtain ⟨r, hr⟩ := findByPk_isSome_of_sameData s _ hsame q hq
  rw [hqid] at hr
  simp only [hr, buildNewContact_ok]
  exact ⟨_, rfl, rfl⟩

/-- Witness of C20: the secondaries 3 and 4 of the groups rooted at 1 and 2. -/
theorem handleBothSecondaryContacts_comm_witness :
    handleBothSecondaryContacts
        [primaryRow 1 100 (some "a") (some "1"), primaryRow 2 200 (some "b") (some "2"),
          secondaryRow 3 300 1 (some "c") (some "1"), secondaryRow 4 400 2 (some "d") (some "2")]
        (secondaryRow 3 300 1 (some "c") (some "1")) (secondaryRow 4 400 2 (some "d") (some "2"))
        (JsValue.str "c") (JsValue.str "2") =
      handleBothSecondaryContacts
        [primaryRow 1 100 (some "a") (some "1"), primaryRow 2 200 (some "b") (some "2"),
          secondaryRow 3 300 1 (some "c") (some "1"), secondaryRow 4 400 2 (some "d") (some "2")]
        (secondaryRow 4 400 2 (some "d") (some "2")) (secondaryRow 3 300 1 (some "c") (some "1"))
        (JsValue.str "c") (JsValue.str "2") :=
  (handleBothSecondaryContacts_comm
    [primaryRow 1 100 (some "a") (some "1"), primaryRow 2 200 (some "b") (some "2"),
      secondaryRow 3 300 1 (some "c") (some "1"), secondaryRow 4 400 2 (some "d") (some "2")]
    (secondaryRow 3 300 1 (some "c") (some "1")) (secondaryRow 4 400 2 (some "d") (some "2"))
    (JsValue.str "c") (JsValue.str "2") rfl rfl
    ⟨primaryRow 1 100 (some "a") (some "1"), by decide, rfl⟩
    ⟨primaryRow 2 200 (some "b") (some "2"), by decide, rfl⟩).1

/-! ## The guards: groups that are already one -/

/-- C16. MergeOneSecondary guard: for a primary `P` of the table and a secondary `S`
with `S.linked_id = P.id`, `handleOneSecondaryContact`, in either argument order,
leaves the table as it is, whatever the request; and, the request phone number
being a string as the handler declares it, it returns a consolidated contact with
`primaryContactId = P.id`. -/
theorem handleOneSecondaryContact_guard (s : Store) (P S : Contact) (email_ : JsValue)
    (hPs : P ∈ s) (hP : P.link_precedence = LinkPrecedence.primary)
    (hS : S.link_precedence = LinkPrecedence.secondary) (hl : S.linked_id = some P.id) :
    (∀ phoneNumber_ : JsValue,
      (handleOneSecondaryContact s P S email_ phoneNumber_).1 = s ∧
      (handleOneSecondaryContact s S P email_ phoneNumber_).1 = s) ∧
    (∀ ph : String, ∃ v,
      (handleOneSecondaryContact s P S email_ (JsValue.str ph)).2 = Except.ok v ∧
      (handleOneSecondaryContact s S P email_ (JsValue.str ph)).2 = Except.ok v ∧
      v.primaryContactId = P.id) := by
  have hSn : ¬ S.link_precedence = LinkPrecedence.primary := by rw [hS]; decide
  obtain ⟨r, hr⟩ := findByPk_isSome_of_mem s P hPs
  have hid : r.id = P.id := findByPk_id s P.id r hr
  constructor
  · intro phoneNumber_
    simp [handleOneSecondaryContact, findPrimaryContact_eq_ok, hP, hSn, hl, hr]
  · intro ph
    simp [handleOneSecondaryContact, findPrimaryContact_eq_ok, hP, hSn, hl, hr,
      buildNewContact_ok, hid]

/-- Witness of C16: the primary 1 and its secondary 2. -/
theorem handleOneSecondaryContact_guard_witness :
    ∃ v,
      (handleOneSecondaryContact
        [primaryRow 1 100 (some "a") (some "1"), secondaryRow 2 200 1 (some "b") (some "1")]
        (primaryRow 1 100 (some "a") (some "1")) (secondaryRow 2 200 1 (some "b") (some "1"))
        (JsValue.str "b") (JsValue.str "1")).2 = Except.ok v ∧
      (handleOneSecondaryContact
        [primaryRow 1 100 (some "a") (some "1"), secondaryRow 2 200 1 (some "b") (some "1")]
        (secondaryRow 2 200 1 (some "b") (some "1")) (primaryRow 1 100 (some "a") (some "1"))
        (JsValue.str "b") (JsValue.str "1")).2 = Except.ok v ∧
      v.primaryContactId = 1 :=
  (handleOneSecondaryContact_guard
    [primaryRow 1 100 (some "a") (some "1"), secondaryRow 2 200 1 (some "b") (some "1")]
    (primaryRow 1 100 (some "a") (some "1")) (secondaryRow 2 200 1 (some "b") (some "1"))
    (JsValue.str "b") (by decide) rfl rfl rfl).2 "1"

/-- C17 (as amended). SameGroup makes no update: for two secondary records with the
same `linked_id`, `handleBothSecondaryContacts` leaves the table as it is, whatever
the request; and when that `linked_id` is the `id` of a row of the table, the
request phone number being a string, it returns a consolidated contact whose
`primaryContactId` is the shared `linked_id` and whose `secondaryContactIds` is the
ascending list of the ids of the rows that point to it. -/
theorem handleBothSecondaryContacts_sameGroup (s : Store) (X Y : Contact) (email_ : JsValue)
    (k : Nat) (hX : X.link_precedence = LinkPrecedence.secondary)
    (hY : Y.link_precedence = LinkPrecedence.secondary)
    (hXl : X.linked_id = some k) (hYl : Y.linked_id = some k) :
    (∀ phoneNumber_ : JsValue,
      (handleBothSecondaryContacts s X Y email_ phoneNumber_).1 = s) ∧
    ((∃ q ∈ s, q.id = k) → ∀ ph : String, ∃ v,
      handleBothSecondaryContacts s X Y email_ (JsValue.str ph) = (s, Except.ok v) ∧
      v.primaryContactId = k ∧
      List.Sorted (· ≤ ·) v.secondaryContactIds ∧
      List.Perm v.secondaryContactIds
        ((s.filter (fun r => decide (r.linked_id = some k))).map (fun r => r.id))) := by
  constructor
  · intro phoneNumber_
    rw [handleBothSecondaryContacts_eq s X Y email_ phoneNumber_ k k hX hY hXl hYl]
    simp
  · rintro ⟨q, hq, rfl⟩ ph
    obtain ⟨r, hr⟩ := findByPk_isSome_of_mem s q hq
    rw [handleBothSecondaryContacts_eq s X Y email_ (JsValue.str ph) q.id q.id hX hY hXl hYl]
    simp only [if_true, Nat.min_self, hr, buildNewContact_ok]
    exact ⟨_, rfl, findByPk_id s q.id r hr, findAllIdsByLinkedId_sorted s _,
      findAllIdsByLinkedId_perm s _⟩

/-- Witness of C17 (as amended): the secondaries 3 and 2 of the primary 1. -/
theorem handleBothSecondaryContacts_sameGroup_witness :
    ∃ v,
      handleBothSecondaryContacts
          [primaryRow 1 100 (some "a") (some "1"), secondaryRow 3 300 1 (some "c") (some "1"),
            secondaryRow 2 200 1 (some "b") (some "2")]
          (secondaryRow 3 300 1 (some "c") (some "1"))
          (secondaryRow 2 200 1 (some "b") (some "2")) (JsValue.str "c") (JsValue.str "2") =
        ([primaryRow 1 100 (some "a") (some "1"), secondaryRow 3 300 1 (some "c") (some "1"),
            secondaryRow 2 200 1 (some "b") (some "2")], Except.ok v) ∧
      v.primaryContactId = 1 ∧
      List.Sorted (· ≤ ·) v.secondaryContactIds ∧
      List.Perm v.secondaryContactIds
        (([primaryRow 1 100 (some "a") (some "1"), secondaryRow 3 300 1 (some "c") (some "1"),
            secondaryRow 2 200 1 (some "b") (some "2")].filter
          (fun r => decide (r.linked_id = some 1))).map (fun r => r.id)) :=
  (handleBothSecondaryContacts_sameGroup
    [primaryRow 1 100 (some "a") (some "1"), secondaryRow 3 300 1 (some "c") (some "1"),
      secondaryRow 2 200 1 (some "b") (some "2")]
    (secondaryRow 3 300 1 (some "c") (some "1")) (secondaryRow 2 200 1 (some "b") (some "2"))
    (JsValue.str "c") 1 rfl rfl rfl rfl).2
    ⟨primaryRow 1 100 (some "a") (some "1"), by decide, rfl⟩ "2"

/-- Counterexample to C17 as stated: the secondaries 2 and 3 share the `linked_id` 7,
which is the `id` of no row; `handleBothSecondaryContacts` leaves the table as it
is but ends in a `TypeError` instead of returning a consolidated contact. -/
theorem handleBothSecondaryContacts_sameGroup_dangling :
    handleBothSecondaryContacts
        [secondaryRow 2 200 7 (some "b") (some "2"), secondaryRow 3 300 7 (some "c") (some "3")]
        (secondaryRow 2 200 7 (some "b") (some "2")) (secondaryRow 3 300 7 (some "c") (some "3"))
        (JsValue.str "b") (JsValue.str "3") =
      ([secondaryRow 2 200 7 (some "b") (some "2"), secondaryRow 3 300 7 (some "c") (some "3")],
        Except.error JsError.typeError) := by
  decide

/-! ## The consolidated contact of a merge of two primaries -/

theorem arrayFromSet_pair (a b : JsValue) :
    arrayFromSet [a, b] = if a = b then [a] else [a, b] := by
  by_cases h : a = b
  · simp [arrayFromSet, h]
  · simp [arrayFromSet, h, Ne.symm h]

theorem filter_linked_update_merge (s : Store) (n o : Nat) :
    ((update s (some n)
        (fun r => { r with linked_id := some o,
                           link_precedence := LinkPrecedence.secondary })).filter
      (fun r => decide (r.linked_id = some o))).map (fun r => r.id) =
    (s.filter (fun r => decide (r.linked_id = some o ∨ r.id = n ∨ r.linked_id = some n))).map
      (fun r => r.id) := by
  unfold update
  rw [List.filter_map, List.map_map]
  have hf : ∀ r ∈ s,
      ((fun r : Contact => decide (r.linked_id = some o)) ∘
        (fun r => if matchesIdOrLinkedId (some n) r = true then
          { r with linked_id := some o, link_precedence := LinkPrecedence.secondary }
          else r)) r =
      decide (r.linked_id = some o ∨ r.id = n ∨ r.linked_id = some n) := by
    intro r _
    by_cases h1 : r.id = n <;> by_cases h2 : r.linked_id = some n <;>
      by_cases h3 : r.linked_id = some o <;>
      (simp [matchesIdOrLinkedId, h1, h2, h3]; try (split_ifs <;> simp [h3]))
  rw [List.filter_congr hf]
  apply List.map_congr_left
  intro r _
  simp only [Function.comp]
  split_ifs <;> rfl

theorem filter_id_eq_singleton (s : Store) (q : Contact) (hu : UniqueIds s) (hq : q ∈ s) :
    (s.filter (fun r => decide (r.id = q.id))).map (fun r => r.id) = [q.id] := by
  induction s with
  | nil => simp at hq
  | cons r t ih =>
    unfold UniqueIds at hu ih
    rw [List.map_cons, List.nodup_cons] at hu
    by_cases h : r.id = q.id
    · have hnil : t.filter (fun r => decide (r.id = q.id)) = [] := by
        rw [List.filter_eq_nil_iff]
        intro c hc hcid
        apply hu.1
        rw [h, ← of_decide_eq_true hcid]
        exact List.mem_map_of_mem _ hc
      simp [List.filter_cons, h, hnil]
    · rcases List.mem_cons.mp hq with rfl | hq
      · exact absurd rfl h
      · simp [List.filter_cons, h, ih hu.2 hq]

/-- C12. View after MergePrimaries: when `older`, a primary record, was created strictly
before `newer` and both carry an email and a phone number,
`handleBothPrimaryContacts`, in either argument order, returns a consolidated
contact with `primaryContactId = older.id`, `emails` the two emails in the order
older, newer with a duplicate removed, `phoneNumbers` likewise, and
`secondaryContactIds` the ascending list of the ids of the rows that pointed to
`older`, of `newer` itself and of the rows that pointed to `newer`; in a table with
unique ids that holds `newer` and where no row pointed to either, this list is
`[newer.id]`. -/
theorem handleBothPrimaryContacts_view (s : Store) (older newer : Contact)
    (eo po en pn : String) (h : older.created_at < newer.created_at)
    (hOp : older.link_precedence = LinkPrecedence.primary)
    (heo : older.email = some eo) (hpo : older.phone_number = some po)
    (hen : newer.email = some en) (hpn : newer.phone_number = some pn) :
    ∃ v, (handleBothPrimaryContacts s older newer).2 = Except.ok v ∧
      (handleBothPrimaryContacts s newer older).2 = Except.ok v ∧
      v.primaryContactId = older.id ∧
      v.emails = (if eo = en then [JsValue.str eo] else [JsValue.str eo, JsValue.str en]) ∧
      v.phoneNumbers =
        (if po = pn then [JsValue.str po] else [JsValue.str po, JsValue.str pn]) ∧
      List.Sorted (· ≤ ·) v.secondaryContactIds ∧
      List.Perm v.secondaryContactIds
        ((s.filter (fun r => decide
            (r.linked_id = some older.id ∨ r.id = newer.id ∨ r.linked_id = some newer.id))).map
          (fun r => r.id)) ∧
      (UniqueIds s → newer ∈ s →
        (∀ r ∈ s, r.linked_id ≠ some older.id ∧ r.linked_id ≠ some newer.id) →
        v.secondaryContactIds = [newer.id]) := by
  have hle : older.created_at ≤ newer.created_at := Nat.le_of_lt h
  have hnle : ¬ newer.created_at ≤ older.created_at := Nat.not_le.mpr h
  have hperm : List.Perm
      (findAllIdsByLinkedId
        (update s (some newer.id)
          (fun r => { r with linked_id := some older.id,
                             link_precedence := LinkPrecedence.secondary }))
        (some older.id))
      ((s.filter (fun r => decide
          (r.linked_id = some older.id ∨ r.id = newer.id ∨ r.linked_id = some newer.id))).map
        (fun r => r.id)) := by
    rw [← filter_linked_update_merge]
    exact findAllIdsByLinkedId_perm _ _
  refine ⟨{ primaryContactId := older.id
            emails := arrayFromSet [JsValue.str eo, JsValue.str en]
            phoneNumbers := arrayFromSet [JsValue.str po, JsValue.str pn]
            secondaryContactIds :=
              findAllIdsByLinkedId
                (update s (some newer.id)
                  (fun r => { r with linked_id := some older.id,
                                     link_precedence := LinkPrecedence.secondary }))
                (some older.id) },
    ?_, ?_, rfl, ?_, ?_, findAllIdsByLinkedId_sorted _ _, hperm, ?_⟩
  · simp [handleBothPrimaryContacts, hle, hOp, heo, hpo, hen, hpn, ofColumn, jsToString,
      findSecondaryContacts]
  · simp [handleBothPrimaryContacts, hnle, hOp, heo, hpo, hen, hpn, ofColumn, jsToString,
      findSecondaryContacts]
  · show arrayFromSet [JsValue.str eo, JsValue.str en] = _
    rw [arrayFromSet_pair]
    by_cases he : eo = en <;> simp [he]
  · show arrayFromSet [JsValue.str po, JsValue.str pn] = _
    rw [arrayFromSet_pair]
    by_cases hp : po = pn <;> simp [hp]
  · intro hu hmem hnone
    have hfilter : s.filter (fun r => decide
          (r.linked_id = some older.id ∨ r.id = newer.id ∨ r.linked_id = some newer.id)) =
        s.filter (fun r => decide (r.id = newer.id)) := by
      apply List.filter_congr
      intro r hr
      simp [(hnone r hr).1, (hnone r hr).2]
    rw [hfilter, filter_id_eq_singleton s newer hu hmem] at hperm
    exact List.perm_singleton.mp hperm

/-- Witness of C12: Scenario C of the specification, the primaries 1 (a, 1) and 2
(b, 2) with no secondaries. -/
theorem handleBothPrimaryContacts_view_witness :
    ∃ v,
      (handleBothPrimaryContacts
        [primaryRow 1 100 (some "a") (some "1"), primaryRow 2 200 (some "b") (some "2")]
        (primaryRow 1 100 (some "a") (some "1")) (primaryRow 2 200 (some "b") (some "2"))).2 =
        Except.ok v ∧
      v.primaryContactId = 1 ∧
      v.emails = [JsValue.str "a", JsValue.str "b"] ∧
      v.phoneNumbers = [JsValue.str "1", JsValue.str "2"] ∧
      v.secondaryContactIds = [2] := by
  obtain ⟨v, h1, _, h3, h4, h5, _, _, h8⟩ :=
    handleBothPrimaryContacts_view
      [primaryRow 1 100 (some "a") (some "1"), primaryRow 2 200 (some "b") (some "2")]
      (primaryRow 1 100 (some "a") (some "1")) (primaryRow 2 200 (some "b") (some "2"))
      "a" "1" "b" "2" (by decide) rfl rfl rfl rfl rfl
  exact ⟨v, h1, h3, by simpa using h4, by simpa using h5,
    h8 (by decide) (by decide) (by decide)⟩

/-! ## The dedup law -/

theorem eq_of_same_id (s : Store) (hu : UniqueIds s) (p q : Contact) (hp : p ∈ s) (hq : q ∈ s)
    (h : p.id = q.id) : p = q :=
  List.inj_on_of_nodup_map hu hp hq h

theorem dedupLaw_of_build (s s' : Store) (hu : UniqueIds s) (hd : List.Forall₂ SameData s s')
    (primaryContact : Option Contact) (email_ phoneNumber_ : JsValue) (ids : List Nat)
    (v : ConsolidatedContact)
    (hpc : ∀ pc, primaryContact = some pc → pc ∈ s ∨ pc ∈ s')
    (h : buildNewContact primaryContact email_ phoneNumber_ ids = Except.ok v) :
    DedupLaw s' v email_ phoneNumber_ := by
  cases primaryContact with
  | none => simp [buildNewContact] at h
  | some pc =>
    cases phoneNumber_ with
    | undefined => simp [buildNewContact, jsToString] at h
    | null => simp [buildNewContact, jsToString] at h
    | str ph =>
      rw [buildNewContact_ok] at h
      injection h with h
      subst h
      have hr : ∃ r ∈ s, SameData r pc := by
        rcases hpc pc rfl with hmem | hmem
        · exact ⟨pc, hmem, rfl, rfl, rfl, rfl⟩
        · exact exists_mem_of_sameData_right s s' hd pc hmem
      obtain ⟨r, hrs, hrd⟩ := hr
      obtain ⟨p0, hp0, hp0d⟩ := exists_mem_of_sameData s s' hd r hrs
      refine ⟨?_, ?_, ⟨p0, hp0, by rw [hp0d.1, hrd.1]⟩, ?_⟩
      · show (arrayFromSet [ofColumn pc.email, email_]).Nodup
        rw [arrayFromSet_pair]
        split_ifs with he <;> simp [he]
      · show (arrayFromSet [ofColumn pc.phone_number, JsValue.str ph]).Nodup
        rw [arrayFromSet_pair]
        split_ifs with he <;> simp [he]
      · intro p hp hid
        obtain ⟨q, hq, hqd⟩ := exists_mem_of_sameData_right s s' hd p hp
        have hqr : q = r := by
          apply eq_of_same_id s hu q r hq hrs
          rw [← hqd.1, hid, ← hrd.1]
        subst hqr
        have he : p.email = pc.email := by rw [hqd.2.1, hrd.2.1]
        have hph : p.phone_number = pc.phone_number := by rw [hqd.2.2.1, hrd.2.2.1]
        rw [he, hph]
        exact ⟨arrayFromSet_pair _ _, arrayFromSet_pair _ _⟩

theorem findPrimary_mem (s s' : Store) (c : Contact) (hc : c ∈ s) (pc : Contact)
    (h : (if c.link_precedence = LinkPrecedence.primary then some c
      else findByPk s' c.linked_id) = some pc) : pc ∈ s ∨ pc ∈ s' := by
  split_ifs at h
  · injection h with h
    subst h
    exact Or.inl hc
  · unfold findByPk at h
    exact Or.inr (List.mem_of_find?_eq_some h)

theorem handleOneSecondaryContact_view_shape (s : Store) (A B : Contact)
    (email_ phoneNumber_ : JsValue) (v : ConsolidatedContact)
    (hv : (handleOneSecondaryContact s A B email_ phoneNumber_).2 = Except.ok v) :
    ∃ c, (c = A ∨ c = B) ∧ ∃ ids,
      buildNewContact
        (if c.link_precedence = LinkPrecedence.primary then some c
          else findByPk (handleOneSecondaryContact s A B email_ phoneNumber_).1 c.linked_id)
        email_ phoneNumber_ ids = Except.ok v := by
  by_cases hp : A.link_precedence = LinkPrecedence.primary
  · refine ⟨B, Or.inr rfl, ?_⟩
    simp only [handleOneSecondaryContact, findPrimaryContact_eq_ok, hp, decide_True,
      if_true] at hv ⊢
    cases hq : (if B.link_precedence = LinkPrecedence.primary then some B
        else findByPk s B.linked_id) with
    | none => simp [hq] at hv
    | some t =>
      simp only [hq] at hv ⊢
      exact ⟨_, hv⟩
  · refine ⟨A, Or.inl rfl, ?_⟩
    simp only [handleOneSecondaryContact, findPrimaryContact_eq_ok, hp, decide_False,
      Bool.false_eq_true, if_false] at hv ⊢
    cases hq : findByPk s A.linked_id with
    | none => simp [hq] at hv
    | some t =>
      simp only [hq] at hv ⊢
      exact ⟨_, hv⟩

theorem handleBothSecondaryContacts_view_shape (s : Store) (A B : Contact)
    (email_ phoneNumber_ : JsValue) (v : ConsolidatedContact)
    (hv : (handleBothSecondaryContacts s A B email_ phoneNumber_).2 = Except.ok v) :
    ∃ c, (c = A ∨ c = B) ∧ ∃ ids,
      buildNewContact
        (if c.link_precedence = LinkPrecedence.primary then some c
          else findByPk (handleBothSecondaryContacts s A B email_ phoneNumber_).1 c.linked_id)
        email_ phoneNumber_ ids = Except.ok v := by
  by_cases hd : A.linked_id = B.linked_id
  · refine ⟨A, Or.inl rfl, ?_⟩
    simp only [handleBothSecondaryContacts, findPrimaryContact_eq_ok, hd, ne_eq,
      not_true_eq_false, decide_False, Bool.false_eq_true, if_false] at hv ⊢
    exact ⟨_, hv⟩
  · by_cases hl : jsLt A.linked_id B.linked_id = true
    · refine ⟨A, Or.inl rfl, ?_⟩
      simp only [handleBothSecondaryContacts, findPrimaryContact_eq_ok, hd, hl, ne_eq,
        not_false_eq_true, decide_True, if_true] at hv ⊢
      exact ⟨_, hv⟩
    · refine ⟨B, Or.inr rfl, ?_⟩
      simp only [handleBothSecondaryContacts, findPrimaryContact_eq_ok, hd, hl, ne_eq,
        not_false_eq_true, decide_True, if_true, Bool.false_eq_true, if_false] at hv ⊢
      exact ⟨_, hv⟩

theorem handleBothPrimaryContacts_view_of_le_eq (s : Store) (A B : Contact)
    (h : A.created_at ≤ B.created_at) :
    (handleBothPrimaryContacts s A B).2 =
      buildNewContact (some A) (ofColumn B.email) (ofColumn B.phone_number)
        (findSecondaryContacts (handleBothPrimaryContacts s A B).1 A) := by
  simp only [handleBothPrimaryContacts, h, decide_True, if_true, buildNewContact]

theorem handleBothPrimaryContacts_view_of_lt_eq (s : Store) (A B : Contact)
    (h : B.created_at < A.created_at) :
    (handleBothPrimaryContacts s A B).2 =
      buildNewContact (some B) (ofColumn A.email) (ofColumn A.phone_number)
        (findSecondaryContacts (handleBothPrimaryContacts s A B).1 B) := by
  simp only [handleBothPrimaryContacts, Nat.not_le.mpr h, decide_False, Bool.false_eq_true,
    if_false, buildNewContact]

/-- C13. Dedup law: in a table with unique ids, for argument records `A` and `B` of the
table, whenever `consolidateContacts`, `handleBothPrimaryContacts`,
`handleOneSecondaryContact` or `handleBothSecondaryContacts` returns a consolidated
contact, its `emails` and its `phoneNumbers` hold no value twice, and each begins
with the value stored, in the table the call leaves, on the row whose `id` is its
`primaryContactId`, followed by the other value when it differs: the email and
the phone number of the request, or, for `handleBothPrimaryContacts`, those of the
record taken as newer. -/
theorem dedup_law (s : Store) (A B : Contact) (email_ phoneNumber_ : JsValue)
    (hu : UniqueIds s) (hA : A ∈ s) (hB : B ∈ s) :
    (∀ v, consolidateContacts s A email_ phoneNumber_ = Except.ok v →
      DedupLaw s v email_ phoneNumber_) ∧
    (∀ v, (handleBothPrimaryContacts s A B).2 = Except.ok v →
      (A.created_at ≤ B.created_at ∧
        DedupLaw (handleBothPrimaryContacts s A B).1 v
          (ofColumn B.email) (ofColumn B.phone_number)) ∨
      (B.created_at < A.created_at ∧
        DedupLaw (handleBothPrimaryContacts s A B).1 v
          (ofColumn A.email) (ofColumn A.phone_number))) ∧
    (∀ v, (handleOneSecondaryContact s A B email_ phoneNumber_).2 = Except.ok v →
      DedupLaw (handleOneSecondaryContact s A B email_ phoneNumber_).1 v
        email_ phoneNumber_) ∧
    (∀ v, (handleBothSecondaryContacts s A B email_ phoneNumber_).2 = Except.ok v →
      DedupLaw (handleBothSecondaryContacts s A B email_ phoneNumber_).1 v
        email_ phoneNumber_) := by
  refine ⟨?_, ?_, ?_, ?_⟩
  · intro v hv
    simp only [consolidateContacts, findPrimaryContact_eq_ok] at hv
    exact dedupLaw_of_build s s hu (forall₂_sameData_refl s) _ _ _ _ v
      (fun pc hpc => findPrimary_mem s s A hA pc hpc) hv
  · intro v hv
    by_cases h : A.created_at ≤ B.created_at
    · left
      rw [handleBothPrimaryContacts_view_of_le_eq s A B h] at hv
      exact ⟨h, dedupLaw_of_build s _ hu (handleBothPrimaryContacts_sameData s A B) _ _ _ _ v
        (fun pc hpc => Or.inl (by injection hpc with hpc; rw [← hpc]; exact hA)) hv⟩
    · right
      have hlt : B.created_at < A.created_at := Nat.lt_of_not_le h
      rw [handleBothPrimaryContacts_view_of_lt_eq s A B hlt] at hv
      exact ⟨hlt, dedupLaw_of_build s _ hu (handleBothPrimaryContacts_sameData s A B) _ _ _ _ v
        (fun pc hpc => Or.inl (by injection hpc with hpc; rw [← hpc]; exact hB)) hv⟩
  · intro v hv
    obtain ⟨c, hc, ids, hb⟩ :=
      handleOneSecondaryContact_view_shape s A B email_ phoneNumber_ v hv
    have hcs : c ∈ s := by rcases hc with rfl | rfl <;> assumption
    exact dedupLaw_of_build s _ hu (handleOneSecondaryContact_sameData s A B email_ phoneNumber_)
      _ _ _ ids v (fun pc hpc => findPrimary_mem s _ c hcs pc hpc) hb
  · intro v hv
    obtain ⟨c, hc, ids, hb⟩ :=
      handleBothSecondaryContacts_view_shape s A B email_ phoneNumber_ v hv
    have hcs : c ∈ s := by rcases hc with rfl | rfl <;> assumption
    exact dedupLaw_of_build s _ hu
      (handleBothSecondaryContacts_sameData s A B email_ phoneNumber_)
      _ _ _ ids v (fun pc hpc => findPrimary_mem s _ c hcs pc hpc) hb

/-- Witness of C13: the consolidated contact that `handleOneSecondaryContact` returns
for the primary 1 and the secondary 3 of the primary 2, with the request
("a", "2"). -/
theorem dedup_law_witness :
    DedupLaw
      (handleOneSecondaryContact
        [primaryRow 1 100 (some "a") (some "1"), primaryRow 2 200 (some "b") (some "2"),
          secondaryRow 3 300 2 (some "c") (some "2")]
        (primaryRow 1 100 (some "a") (some "1")) (secondaryRow 3 300 2 (some "c") (some "2"))
        (JsValue.str "a") (JsValue.str "2")).1
      { primaryContactId := 2
        emails := [JsValue.str "b", JsValue.str "a"]
        phoneNumbers := [JsValue.str "2"]
        secondaryContactIds := [2, 3] }
      (JsValue.str "a") (JsValue.str "2") :=
  (dedup_law
    [primaryRow 1 100 (some "a") (some "1"), primaryRow 2 200 (some "b") (some "2"),
      secondaryRow 3 300 2 (some "c") (some "2")]
    (primaryRow 1 100 (some "a") (some "1")) (secondaryRow 3 300 2 (some "c") (some "2"))
    (JsValue.str "a") (JsValue.str "2") (by decide) (by decide) (by decide)).2.2.1 _ (by decide)

/-! ## Creating a secondary -/

theorem lt_nextId (s : Store) : ∀ r ∈ s, r.id < nextId s := by
  unfold nextId
  induction s with
  | nil => simp
  | cons a t ih =>
    intro r hr
    rw [List.map_cons, List.foldr_cons]
    rcases List.mem_cons.mp hr with rfl | hr
    · exact Nat.lt_succ_of_le (Nat.le_max_left _ _)
    · exact Nat.lt_succ_of_le (Nat.le_trans (Nat.le_of_lt_succ (ih r hr)) (Nat.le_max_right _ _))

/-- C14 (as amended). NewSecondary creation: `createContact(f, email, phone)` adds
exactly one row, with a fresh `id`, the given email and phone number,
`link_precedence = secondary` and `linked_id = f.id` when `f` is primary and
`f.linked_id` otherwise, and leaves every existing row unchanged; and when the
primary of the group of `f` is there (`f` is primary, or `f.linked_id` is the `id`
of a row) and a phone number is given, a following
`consolidateContacts(f, email, phone)` returns a consolidated contact whose
`secondaryContactIds` contains the `id` of the new row. -/
theorem createContact_newSecondary (s : Store) (now : Nat) (f : Contact)
    (email_ phoneNumber_ : JsValue) :
    (createContact s now f email_ phoneNumber_).1 =
      s ++ [(createContact s now f email_ phoneNumber_).2] ∧
    (∀ r ∈ s, r.id < (createContact s now f email_ phoneNumber_).2.id) ∧
    (createContact s now f email_ phoneNumber_).2.email = toColumn email_ ∧
    (createContact s now f email_ phoneNumber_).2.phone_number = toColumn phoneNumber_ ∧
    (createContact s now f email_ phoneNumber_).2.link_precedence = LinkPrecedence.secondary ∧
    (createContact s now f email_ phoneNumber_).2.linked_id =
      (if f.link_precedence = LinkPrecedence.primary then some f.id else f.linked_id) ∧
    ((f.link_precedence = LinkPrecedence.primary ∨ ∃ q ∈ s, f.linked_id = some q.id) →
      ∀ ph : String, ∃ v,
        consolidateContacts (createContact s now f email_ (JsValue.str ph)).1 f email_
          (JsValue.str ph) = Except.ok v ∧
        (createContact s now f email_ (JsValue.str ph)).2.id ∈ v.secondaryContactIds) := by
  refine ⟨rfl, lt_nextId s, rfl, rfl, rfl, rfl, ?_⟩
  intro hprim ph
  have hmem : (createContact s now f email_ (JsValue.str ph)).2.id ∈
      findSecondaryContacts (createContact s now f email_ (JsValue.str ph)).1 f := by
    unfold findSecondaryContacts
    rw [mem_findAllIdsByLinkedId]
    exact ⟨(createContact s now f email_ (JsValue.str ph)).2,
      by simp [createContact, create], rfl, rfl⟩
  have key : ∀ pc,
      (if f.link_precedence = LinkPrecedence.primary then some f
        else findByPk (createContact s now f email_ (JsValue.str ph)).1 f.linked_id) =
        some pc →
      ∃ v,
        consolidateContacts (createContact s now f email_ (JsValue.str ph)).1 f email_
          (JsValue.str ph) = Except.ok v ∧
        (createContact s now f email_ (JsValue.str ph)).2.id ∈ v.secondaryContactIds := by
    intro pc hpc
    refine ⟨{ primaryContactId := pc.id
              emails := arrayFromSet [ofColumn pc.email, email_]
              phoneNumbers := arrayFromSet [ofColumn pc.phone_number, JsValue.str ph]
              secondaryContactIds :=
                findSecondaryContacts (createContact s now f email_ (JsValue.str ph)).1 f },
      ?_, hmem⟩
    simp only [consolidateContacts, findPrimaryContact_eq_ok, hpc, buildNewContact_ok]
  by_cases hp : f.link_precedence = LinkPrecedence.primary
  · exact key f (by simp [hp])
  · rcases hprim with hp' | ⟨q, hq, hl⟩
    · exact absurd hp' hp
    · obtain ⟨r, hr⟩ := findByPk_isSome_of_mem
        (createContact s now f email_ (JsValue.str ph)).1 q
        (by simp [createContact, create, hq])
      exact key r (by simp only [hp, if_false, hl, hr])

/-- Witness of C14 (as amended): Scenario B of the specification, the submission
("a", "2") after the primary 1 (a, 1) was created. -/
theorem createContact_newSecondary_witness :
    ∃ v,
      consolidateContacts
          (createContact [primaryRow 1 100 (some "a") (some "1")] 200
            (primaryRow 1 100 (some "a") (some "1")) (JsValue.str "a") (JsValue.str "2")).1
          (primaryRow 1 100 (some "a") (some "1")) (JsValue.str "a") (JsValue.str "2") =
        Except.ok v ∧
      (createContact [primaryRow 1 100 (some "a") (some "1")] 200
        (primaryRow 1 100 (some "a") (some "1")) (JsValue.str "a") (JsValue.str "2")).2.id ∈
        v.secondaryContactIds :=
  (createContact_newSecondary [primaryRow 1 100 (some "a") (some "1")] 200
    (primaryRow 1 100 (some "a") (some "1")) (JsValue.str "a") (JsValue.str "2")).2.2.2.2.2.2
    (Or.inl rfl) "2"

/-- Counterexample to C14 as stated: the found record is the secondary 2, whose
`linked_id` 7 is the `id` of no row.  `createContact` adds the secondary 3 linked
to 7, and the following `consolidateContacts` ends in a `TypeError` instead of
returning a consolidated contact. -/
theorem createContact_then_consolidate_dangling :
    createContact [secondaryRow 2 200 7 (some "b") (some "2")] 300
        (secondaryRow 2 200 7 (some "b") (some "2")) (JsValue.str "c") (JsValue.str "2") =
      ([secondaryRow 2 200 7 (some "b") (some "2"), secondaryRow 3 300 7 (some "c") (some "2")],
        secondaryRow 3 300 7 (some "c") (some "2")) ∧
    consolidateContacts
        [secondaryRow 2 200 7 (some "b") (some "2"), secondaryRow 3 300 7 (some "c") (some "2")]
        (secondaryRow 2 200 7 (some "b") (some "2")) (JsValue.str "c") (JsValue.str "2") =
      Except.error JsError.typeError := by
  decide

/-! ## A failed merge -/

theorem buildNewContact_error_phone (pc : Contact) (email_ phoneNumber_ : JsValue)
    (ids : List Nat)
    (h : buildNewContact (some pc) email_ phoneNumber_ ids = Except.error JsError.typeError) :
    phoneNumber_ = JsValue.undefined ∨ phoneNumber_ = JsValue.null := by
  cases phoneNumber_ with
  | undefined => exact Or.inl rfl
  | null => exact Or.inr rfl
  | str ph => rw [buildNewContact_ok] at h; exact absurd h (by simp)

theorem findPrimary_isSome_of_sameData (s s' : Store) (hd : List.Forall₂ SameData s s')
    (c t : Contact)
    (h : (if c.link_precedence = LinkPrecedence.primary then some c
      else findByPk s c.linked_id) = some t) :
    ∃ r, (if c.link_precedence = LinkPrecedence.primary then some c
      else findByPk s' c.linked_id) = some r := by
  split_ifs at h ⊢ with hc
  · exact ⟨c, rfl⟩
  · have hmem : t ∈ s := by
      unfold findByPk at h
      exact List.mem_of_find?_eq_some h
    have hl : c.linked_id = some t.id := by
      unfold findByPk at h
      have := List.find?_some h
      exact (of_decide_eq_true this).symm
    rw [hl]
    exact findByPk_isSome_of_sameData s s' hd t hmem

theorem handleOneSecondaryContact_failure_first (s : Store) (A B : Contact)
    (email_ phoneNumber_ : JsValue) (hp : A.link_precedence = LinkPrecedence.primary)
    (h : (handleOneSecondaryContact s A B email_ phoneNumber_).2 =
      Except.error JsError.typeError) :
    OneSecondaryFailure s (handleOneSecondaryContact s A B email_ phoneNumber_).1 A B
      phoneNumber_ := by
  have hd := handleOneSecondaryContact_sameData s A B email_ phoneNumber_
  unfold OneSecondaryFailure
  simp only [handleOneSecondaryContact, findPrimaryContact_eq_ok, hp, decide_True,
    if_true] at h hd ⊢
  cases hq : (if B.link_precedence = LinkPrecedence.primary then some B
      else findByPk s B.linked_id) with
  | none => left; simp only [hq, and_self]
  | some t =>
    right
    simp only [hq] at h hd ⊢
    obtain ⟨r, hr⟩ := findPrimary_isSome_of_sameData s _ hd B t hq
    rw [hr] at h
    refine ⟨t, rfl, buildNewContact_error_phone r _ _ _ h, ?_, ?_⟩
    · intro hg
      simp [hg]
    · intro hg
      constructor
      · intro hlt
        simp only [hg, hlt, ne_eq, not_false_eq_true, if_true, decide_True]
        exact update_relinkedRow s _ _
      · intro hle
        simp only [hg, Nat.not_lt.mpr hle, ne_eq, not_false_eq_true, if_true, decide_False,
          Bool.false_eq_true, if_false]
        exact update_relinkedRow s _ _

theorem handleOneSecondaryContact_failure_second (s : Store) (A B : Contact)
    (email_ phoneNumber_ : JsValue) (hp : ¬ A.link_precedence = LinkPrecedence.primary)
    (h : (handleOneSecondaryContact s A B email_ phoneNumber_).2 =
      Except.error JsError.typeError) :
    OneSecondaryFailure s (handleOneSecondaryContact s A B email_ phoneNumber_).1 B A
      phoneNumber_ := by
  have hd := handleOneSecondaryContact_sameData s A B email_ phoneNumber_
  unfold OneSecondaryFailure
  simp only [handleOneSecondaryContact, findPrimaryContact_eq_ok, hp, decide_False,
    Bool.false_eq_true, if_false] at h hd ⊢
  cases hq : findByPk s A.linked_id with
  | none => left; simp only [hq, and_self]
  | some t =>
    right
    simp only [hq] at h hd ⊢
    have hq' : (if A.link_precedence = LinkPrecedence.primary then some A
        else findByPk s A.linked_id) = some t := by simp only [hp, if_false, hq]
    obtain ⟨r, hr⟩ := findPrimary_isSome_of_sameData s _ hd A t hq'
    simp only [hp, if_false] at hr
    rw [hr] at h
    refine ⟨t, rfl, buildNewContact_error_phone r _ _ _ h, ?_, ?_⟩
    · intro hg
      simp [hg]
    · intro hg
      constructor
      · intro hlt
        simp only [hg, hlt, ne_eq, not_false_eq_true, if_true, decide_True]
        exact update_relinkedRow s _ _
      · intro hle
        simp only [hg, Nat.not_lt.mpr hle, ne_eq, not_false_eq_true, if_true, decide_False,
          Bool.false_eq_true, if_false]
        exact update_relinkedRow s _ _

/-- C8 (as amended). No rollback: what the table holds after a merge handler ended in
an error, for every table and every input.
* `handleBothPrimaryContacts` fails only while building the consolidated contact,
  because the record taken as newer has no phone number; the table then carries
  the update in full: every row of the group of the newer record points to the
  older record and is secondary, every other row is unchanged.
* `handleOneSecondaryContact`, whichever argument it takes as the primary one,
  leaves what `OneSecondaryFailure` says: the table before when it failed before
  its update or the guard skipped the update, and otherwise the update in full.
* `handleBothSecondaryContacts` leaves the table before when the two `linked_id`
  values are equal (no update is issued), and otherwise the update in full: every
  row of the group of the numerically greater root points to the other root and is
  secondary, every other row is unchanged.
In no case is the update partial, and in no case is an update that was issued
undone by the failure. -/
theorem merge_failure_keeps_update (s : Store) (A B : Contact) (email_ phoneNumber_ : JsValue) :
    ((handleBothPrimaryContacts s A B).2 = Except.error JsError.typeError →
      (A.created_at ≤ B.created_at →
        B.phone_number = none ∧
        List.Forall₂ (MergedRow (some B.id) (some A.id)) s
          (handleBothPrimaryContacts s A B).1) ∧
      (B.created_at < A.created_at →
        A.phone_number = none ∧
        List.Forall₂ (MergedRow (some A.id) (some B.id)) s
          (handleBothPrimaryContacts s A B).1)) ∧
    ((handleOneSecondaryContact s A B email_ phoneNumber_).2 = Except.error JsError.typeError →
      (A.link_precedence = LinkPrecedence.primary →
        OneSecondaryFailure s (handleOneSecondaryContact s A B email_ phoneNumber_).1 A B
          phoneNumber_) ∧
      (A.link_precedence ≠ LinkPrecedence.primary →
        OneSecondaryFailure s (handleOneSecondaryContact s A B email_ phoneNumber_).1 B A
          phoneNumber_)) ∧
    ((handleBothSecondaryContacts s A B email_ phoneNumber_).2 =
        Except.error JsError.typeError →
      (A.linked_id = B.linked_id →
        (handleBothSecondaryContacts s A B email_ phoneNumber_).1 = s) ∧
      (A.linked_id ≠ B.linked_id →
        (A.linked_id.getD 0 < B.linked_id.getD 0 →
          List.Forall₂ (MergedRow B.linked_id A.linked_id) s
            (handleBothSecondaryContacts s A B email_ phoneNumber_).1) ∧
        (B.linked_id.getD 0 ≤ A.linked_id.getD 0 →
          List.Forall₂ (MergedRow A.linked_id B.linked_id) s
            (handleBothSecondaryContacts s A B email_ phoneNumber_).1))) := by
  have nophone : ∀ (pc : Contact) (e : JsValue) (ph : Option String) (ids : List Nat),
      buildNewContact (some pc) e (ofColumn ph) ids = Except.error JsError.typeError →
      ph = none := by
    intro pc e ph ids hb
    cases ph with
    | none => rfl
    | some v =>
      rcases buildNewContact_error_phone pc e _ ids hb with hc | hc <;>
        simp [ofColumn] at hc
  refine ⟨fun h => ⟨fun hle => ?_, fun hlt => ?_⟩, fun h => ⟨fun hp => ?_, fun hp => ?_⟩,
    fun _ => ⟨fun heq => ?_, fun hne => ⟨fun hlt => ?_, fun hle => ?_⟩⟩⟩
  · rw [handleBothPrimaryContacts_view_of_le_eq s A B hle] at h
    refine ⟨nophone _ _ _ _ h, ?_⟩
    rw [handleBothPrimaryContacts_store_of_le s A B hle]
    exact update_mergedRow s _ _
  · rw [handleBothPrimaryContacts_view_of_lt_eq s A B hlt] at h
    refine ⟨nophone _ _ _ _ h, ?_⟩
    rw [handleBothPrimaryContacts_store_of_lt s A B hlt]
    exact update_mergedRow s _ _
  · exact handleOneSecondaryContact_failure_first s A B email_ phoneNumber_ hp h
  · exact handleOneSecondaryContact_failure_second s A B email_ phoneNumber_ hp h
  · rw [handleBothSecondaryContacts_store]
    simp [heq]
  · have hl : jsLt A.linked_id B.linked_id = true := by simpa [jsLt] using hlt
    rw [handleBothSecondaryContacts_store, if_pos hne]
    simp only [hl, if_true]
    exact update_mergedRow s _ _
  · have hl : ¬ jsLt A.linked_id B.linked_id = true := by simpa [jsLt] using hle
    rw [handleBothSecondaryContacts_store, if_pos hne]
    simp only [hl, if_false]
    exact update_mergedRow s _ _

/-- Witness of C8 (as amended): a failing call of each handler whose update stays in
the table.  The newer of two primaries has no phone number; the request of a
merge of the primary 1 with the secondary 3 of the primary 2 has no phone number;
the request of a merge of the secondaries 3 and 4 of the primaries 1 and 2 has no
phone number.  Each call fails, and the table it leaves is not the table
before. -/
theorem merge_failure_keeps_update_witness :
    ((primaryRow 2 200 (some "b") none).phone_number = none ∧
      List.Forall₂ (MergedRow (some 2) (some 1))
        [primaryRow 1 100 (some "a") (some "1"), primaryRow 2 200 (some "b") none]
        (handleBothPrimaryContacts
          [primaryRow 1 100 (some "a") (some "1"), primaryRow 2 200 (some "b") none]
          (primaryRow 1 100 (some "a") (some "1")) (primaryRow 2 200 (some "b") none)).1) ∧
    (OneSecondaryFailure
        [primaryRow 1 100 (some "a") (some "1"), primaryRow 2 200 (some "b") (some "2"),
          secondaryRow 3 300 2 (some "c") (some "2")]
        (handleOneSecondaryContact
          [primaryRow 1 100 (some "a") (some "1"), primaryRow 2 200 (some "b") (some "2"),
            secondaryRow 3 300 2 (some "c") (some "2")]
          (primaryRow 1 100 (some "a") (some "1")) (secondaryRow 3 300 2 (some "c") (some "2"))
          (JsValue.str "a") JsValue.undefined).1
        (primaryRow 1 100 (some "a") (some "1")) (secondaryRow 3 300 2 (some "c") (some "2"))
        JsValue.undefined ∧
      handleOneSecondaryContact
          [primaryRow 1 100 (some "a") (some "1"), primaryRow 2 200 (some "b") (some "2"),
            secondaryRow 3 300 2 (some "c") (some "2")]
          (primaryRow 1 100 (some "a") (some "1")) (secondaryRow 3 300 2 (some "c") (some "2"))
          (JsValue.str "a") JsValue.undefined =
        ([primaryRow 1 100 (some "a") (some "1"),
            { primaryRow 2 200 (some "b") (some "2") with linked_id := some 1 },
            secondaryRow 3 300 1 (some "c") (some "2")],
          Except.error JsError.typeError)) ∧
    (List.Forall₂ (MergedRow (some 2) (some 1))
        [primaryRow 1 100 (some "a") (some "1"), primaryRow 2 200 (some "b") (some "2"),
          secondaryRow 3 300 1 (some "c") (some "1"), secondaryRow 4 400 2 (some "d") (some "2")]
        (handleBothSecondaryContacts
          [primaryRow 1 100 (some "a") (some "1"), primaryRow 2 200 (some "b") (some "2"),
            secondaryRow 3 300 1 (some "c") (some "1"),
            secondaryRow 4 400 2 (some "d") (some "2")]
          (secondaryRow 3 300 1 (some "c") (some "1"))
          (secondaryRow 4 400 2 (some "d") (some "2")) (JsValue.str "c") JsValue.undefined).1 ∧
      handleBothSecondaryContacts
          [primaryRow 1 100 (some "a") (some "1"), primaryRow 2 200 (some "b") (some "2"),
            secondaryRow 3 300 1 (some "c") (some "1"),
            secondaryRow 4 400 2 (some "d") (some "2")]
          (secondaryRow 3 300 1 (some "c") (some "1"))
          (secondaryRow 4 400 2 (some "d") (some "2")) (JsValue.str "c") JsValue.undefined =
        ([primaryRow 1 100 (some "a") (some "1"), secondaryRow 2 200 1 (some "b") (some "2"),
            secondaryRow 3 300 1 (some "c") (some "1"),
            secondaryRow 4 400 1 (some "d") (some "2")],
          Except.error JsError.typeError)) :=
  ⟨((merge_failure_keeps_update
        [primaryRow 1 100 (some "a") (some "1"), primaryRow 2 200 (some "b") none]
        (primaryRow 1 100 (some "a") (some "1")) (primaryRow 2 200 (some "b") none)
        JsValue.undefined JsValue.undefined).1 (by decide)).1 (by decide),
   ⟨((merge_failure_keeps_update
        [primaryRow 1 100 (some "a") (some "1"), primaryRow 2 200 (some "b") (some "2"),
          secondaryRow 3 300 2 (some "c") (some "2")]
        (primaryRow 1 100 (some "a") (some "1")) (secondaryRow 3 300 2 (some "c") (some "2"))
        (JsValue.str "a") JsValue.undefined).2.1 (by decide)).1 rfl,
     by decide⟩,
   ⟨(((merge_failure_keeps_update
        [primaryRow 1 100 (some "a") (some "1"), primaryRow 2 200 (some "b") (some "2"),
          secondaryRow 3 300 1 (some "c") (some "1"),
          secondaryRow 4 400 2 (some "d") (some "2")]
        (secondaryRow 3 300 1 (some "c") (some "1")) (secondaryRow 4 400 2 (some "d") (some "2"))
        (JsValue.str "c") JsValue.undefined).2.2 (by decide)).2 (by decide)).1 (by decide),
     by decide⟩⟩

/-- Counterexample to C8 as stated: the newer primary (row 2) has no phone number;
`handleBothPrimaryContacts` ends in a `TypeError` while building the consolidated
contact, and the table after the failed call differs from the table before it:
row 2 has been demoted and linked to row 1. -/
theorem handleBothPrimaryContacts_failure_not_atomic :
    handleBothPrimaryContacts
        [primaryRow 1 100 (some "a") (some "1"), primaryRow 2 200 (some "b") none]
        (primaryRow 1 100 (some "a") (some "1")) (primaryRow 2 200 (some "b") none) =
      ([primaryRow 1 100 (some "a") (some "1"), secondaryRow 2 200 1 (some "b") none],
        Except.error JsError.typeError) ∧
    [primaryRow 1 100 (some "a") (some "1"), secondaryRow 2 200 1 (some "b") none] ≠
      [primaryRow 1 100 (some "a") (some "1"), primaryRow 2 200 (some "b") none] := by
  decide

end ContactReconciliation
